import Mathlib

/-!
# Verification of the MADO manifest → DICOM metadata synthesis subsystem

Shallow embedding, in Lean 4, of the core pure computations of the
MADO (Key Object Selection manifest) pipeline:

* `MadoParser.parse` (manifest dataset → display sets), from
  `src/unnamed/part_003`;
* `applyExtractedMetadataToSeries` (sample-extracted metadata applied to a
  series), from `src/unnamed/part_005`;
* `synthesizeInstanceMetadata` / `patchTechnicalAttributes` /
  `validateSpacing`, from
  `src/extensions/default/src/DicomWebDataSource/synthesizeMetadataFromMado.ts`
  (that file contains two revisions; the later revision, the one the claims'
  line numbers point into, is embedded);
* `extractFirstPartFromMultipart` and
  `parseImplicitVrLittleEndianForCommonTags`, from `src/unnamed/part_005`.

Modelling conventions:

* JavaScript numbers are modelled as `ℚ`.  `NaN` is outside the model; the
  few places where the source can produce `NaN` (e.g. `parseInt` of a
  non-numeric string) are noted at the definition site.
* Optional / possibly-`undefined` values are `Option _`.
* JS truthiness is modelled exactly: `0`, `""` and `undefined` are falsy;
  an array (even an empty one) is always truthy, hence `a || b` on arrays
  is `Option.orElse` while on numbers and strings it also treats
  `some 0` / `some ""` as falsy.  The nullish operator `??` is
  `Option.orElse` / `Option.getD`.
* The parser starts from the already-decoded attribute tree (the `dict`
  produced by `dcmjs`), with DICOM tags mapped to named fields as
  documented on each structure.
-/

namespace Mado

/-- JS `a || b` for `number | undefined` operands: `undefined` and `0` are
falsy (`NaN`, also falsy, is outside the model). -/
def jsNumOr (a b : Option ℚ) : Option ℚ :=
  match a with
  | some x => if x = 0 then b else some x
  | none => b

/-- JS `a || d` for a `number | undefined` against a definite default. -/
def jsNumOrD (a : Option ℚ) (d : ℚ) : ℚ :=
  match a with
  | some x => if x = 0 then d else x
  | none => d

/-- JS truthiness of a `string | undefined` value: the empty string and
`undefined` are falsy. -/
def jsStrTruthy (a : Option String) : Bool :=
  match a with
  | some s => s ≠ ""
  | none => false

/-- JS `a || b` for `string | undefined` operands. -/
def jsStrOr (a b : Option String) : Option String :=
  if jsStrTruthy a then a else b

/-- JS `a || d` for a `string | undefined` against a definite default. -/
def jsStrOrD (a : Option String) (d : String) : String :=
  match a with
  | some s => if s = "" then d else s
  | none => d

/-- JS `a || b` for array-valued operands: any array object (including
`[]`) is truthy, so only `undefined` falls through. -/
def jsArrOr (a b : Option (List ℚ)) : Option (List ℚ) :=
  match a with
  | some l => some l
  | none => b

/-- `String.prototype.toUpperCase` restricted to the ASCII range used by
the modality and photometric-interpretation strings.  (Character-list
based so that concrete values reduce inside proofs.) -/
def jsUpper (s : String) : String := String.mk (s.data.map Char.toUpper)

/-- `String.prototype.startsWith` (character-list based). -/
def jsStartsWith (s pre : String) : Bool := pre.data.isPrefixOf s.data

/-- `String.prototype.trim` (character-list based; JS and Unicode
whitespace coincide on the ASCII data these values hold). -/
def jsTrim (s : String) : String :=
  String.mk (((s.data.dropWhile Char.isWhitespace).reverse.dropWhile Char.isWhitespace).reverse)

/-- JS `parseInt(s, 10)`: skip leading whitespace, optional sign, then the
maximal run of decimal digits.  A string with no parsable digit prefix
gives `NaN` in JS; that case is `none` here (callers note where a `NaN`
could flow onward in the source). -/
def leadingNat (cs : List Char) : Option Nat :=
  let ds := cs.takeWhile Char.isDigit
  if ds.isEmpty then none
  else some (ds.foldl (fun acc c => 10 * acc + (c.toNat - 48)) 0)

def jsParseInt (s : String) : Option Int :=
  match (jsTrim s).data with
  | '-' :: rest => (leadingNat rest).map (fun n => -(n : Int))
  | '+' :: rest => (leadingNat rest).map (fun n => (n : Int))
  | cs => (leadingNat cs).map (fun n => (n : Int))

/-- Lexicographic (code-unit) comparison of strings, as performed by the
JS `<`/`>` operators on strings; used to state the spec's claimed
SOP-UID tie-break. -/
def lexLe (a b : String) : Bool :=
  let rec go : List Char → List Char → Bool
    | [], _ => true
    | _ :: _, [] => false
    | x :: xs, y :: ys =>
      if x.toNat < y.toNat then true
      else if y.toNat < x.toNat then false
      else go xs ys
  go a.data b.data

/-! ## Data model: parsed manifest entities (`src/unnamed/part_003`)

`MadoInstance` carries the parser-produced reference fields plus the
fields later written onto the same object by the sample-metadata
prefetch (`applyExtractedMetadataToSeries`) and read back by
`synthesizeInstanceMetadata`.  The TS interface also declares camelCase
alias slots for the palette fields and a few fields not touched by any
claim (acquisition/compression/PET extras); those are omitted here, and
the omission is noted where a function would copy them. -/

structure MadoInstance where
  sopClassUID : String := ""
  sopInstanceUID : String := ""
  instanceNumber : Option Int := none
  numberOfFrames : Option ℚ := none
  rows : Option ℚ := none
  columns : Option ℚ := none
  -- pixel module (PascalCase, written by prefetch)
  BitsAllocated : Option ℚ := none
  BitsStored : Option ℚ := none
  HighBit : Option ℚ := none
  PixelRepresentation : Option ℚ := none
  SamplesPerPixel : Option ℚ := none
  PhotometricInterpretation : Option String := none
  PlanarConfiguration : Option ℚ := none
  -- image plane
  pixelSpacing : Option (List ℚ) := none
  imagerPixelSpacing : Option (List ℚ) := none
  imageOrientationPatient : Option (List ℚ) := none
  ImageOrientationPatient : Option (List ℚ) := none
  imagePositionPatient : Option (List ℚ) := none
  ImagePositionPatient : Option (List ℚ) := none
  sliceThickness : Option ℚ := none
  SliceThickness : Option ℚ := none
  SpacingBetweenSlices : Option ℚ := none
  -- VOI / rescale
  WindowCenter : Option ℚ := none
  WindowWidth : Option ℚ := none
  RescaleIntercept : Option ℚ := none
  RescaleSlope : Option ℚ := none
  RescaleType : Option String := none
  -- identification / framing
  FrameOfReferenceUID : Option String := none
  TransferSyntaxUID : Option String := none
  NumberOfFrames : Option ℚ := none
  FrameTime : Option ℚ := none
  Modality : Option String := none
  -- palette colour lookup tables
  RedPaletteColorLookupTableDescriptor : Option (List ℚ) := none
  GreenPaletteColorLookupTableDescriptor : Option (List ℚ) := none
  BluePaletteColorLookupTableDescriptor : Option (List ℚ) := none
  RedPaletteColorLookupTableData : Option (List ℚ) := none
  GreenPaletteColorLookupTableData : Option (List ℚ) := none
  BluePaletteColorLookupTableData : Option (List ℚ) := none
  PaletteColorLookupTableUID : Option String := none
  -- hints and internal flags
  forceColor : Bool := false
  _prefetchedMetadata : Bool := false
  _geometryPatched : Bool := false
deriving DecidableEq, Inhabited, Repr

structure MadoDisplaySet where
  studyInstanceUID : String := ""
  seriesInstanceUID : String := ""
  seriesDescription : String := ""
  seriesDate : Option String := none
  seriesTime : Option String := none
  seriesNumber : Option String := none
  modality : Option String := none
  numberOfSeriesRelatedInstances : Option ℚ := none
  instances : List MadoInstance := []
  retrieveURL : Option String := none
  frameOfReferenceUID : Option String := none
  forceColor : Bool := false
deriving DecidableEq, Inhabited, Repr

/-! ### The manifest dataset

Tag ↔ field mapping (all reads in the source are of the form
`item['TAG']?.Value?.[0]`, so every field is optional):

* dataset: `0020000D` studyInstanceUID, `00080020` studyDate,
  `00080030` studyTime, `0040A375` evidence, `0040A730` content;
* evidence study item: `00081115` referencedSeries;
* series item: `0020000E` seriesInstanceUID, `0008103E` seriesDescription,
  `00080060` modality, `00081190` retrieveURL, `00081199` referencedSOP;
* SOP item: `00081150` sopClassUID, `00081155` sopInstanceUID,
  `00200013` instanceNumber, `00280008` numberOfFrames, `00280010` rows,
  `00280011` columns;
* content item: `0040A040` valueType, `0040A043[0].00080100` conceptCode,
  `0040A160` textValue, `0040A300[0].0040A30A` numericValue,
  `0040A124` uidref, `0040A168[0].00080100` codeItemValue,
  `00081199` refSOP, `0040A730` nested.

Patient-level fields (name, ID, sex, …) are not needed by any claim and
are omitted. -/

structure SopRefItem where
  sopClassUID : Option String := none
  sopInstanceUID : Option String := none
  instanceNumber : Option Int := none
  numberOfFrames : Option ℚ := none
  rows : Option ℚ := none
  columns : Option ℚ := none
deriving DecidableEq, Inhabited, Repr

inductive ContentItem where
  | mk (valueType : Option String) (conceptCode : Option String)
       (textValue : Option String) (numericValue : Option ℚ)
       (uidref : Option String) (codeItemValue : Option String)
       (refSOP : List SopRefItem) (nested : List ContentItem)

def ContentItem.valueType : ContentItem → Option String
  | .mk v _ _ _ _ _ _ _ => v

def ContentItem.conceptCode : ContentItem → Option String
  | .mk _ c _ _ _ _ _ _ => c

def ContentItem.textValue : ContentItem → Option String
  | .mk _ _ t _ _ _ _ _ => t

def ContentItem.numericValue : ContentItem → Option ℚ
  | .mk _ _ _ n _ _ _ _ => n

def ContentItem.uidref : ContentItem → Option String
  | .mk _ _ _ _ u _ _ _ => u

def ContentItem.codeItemValue : ContentItem → Option String
  | .mk _ _ _ _ _ c _ _ => c

def ContentItem.refSOP : ContentItem → List SopRefItem
  | .mk _ _ _ _ _ _ r _ => r

def ContentItem.nested : ContentItem → List ContentItem
  | .mk _ _ _ _ _ _ _ n => n

structure SeriesItem where
  seriesInstanceUID : Option String := none
  seriesDescription : Option String := none
  modality : Option String := none
  retrieveURL : Option String := none
  referencedSOP : List SopRefItem := []

structure StudyEvidenceItem where
  referencedSeries : List SeriesItem := []

structure MadoDataset where
  studyInstanceUID : Option String := none
  studyDate : Option String := none
  studyTime : Option String := none
  evidence : List StudyEvidenceItem := []
  content : List ContentItem := []

namespace MadoParser

/-- `findTextValueByCode` of `MadoParser.parse`. -/
def findTextValueByCode (sequence : List ContentItem) (codeValue : String) :
    Option String :=
  (sequence.find? (fun item =>
    item.conceptCode == some codeValue && item.valueType == some "TEXT")).bind
    ContentItem.textValue

/-- `findNumericValueByCode` of `MadoParser.parse`. -/
def findNumericValueByCode (sequence : List ContentItem) (codeValue : String) :
    Option ℚ :=
  (sequence.find? (fun item =>
    item.conceptCode == some codeValue && item.valueType == some "NUM")).bind
    ContentItem.numericValue

/-- `findModalityFromContent` of `MadoParser.parse`. -/
def findModalityFromContent (sequence : List ContentItem) : Option String :=
  (sequence.find? (fun item =>
    item.conceptCode == some "121139" && item.valueType == some "CODE")).bind
    ContentItem.codeItemValue

/-- The flattened list of `groupContent` lists the source reaches by its
two nested `forEach` loops over `CONTAINER` items. -/
def contentGroups (contentSequence : List ContentItem) :
    List (List ContentItem) :=
  (contentSequence.map (fun ci =>
    if ci.valueType == some "CONTAINER" then
      ci.nested.filterMap (fun ni =>
        if ni.valueType == some "CONTAINER" then some ni.nested else none)
    else [])).flatten

/-- The mutable per-series state accumulated while scanning content
groups: series date/time/number, related-instance count, and the
`instanceMetadataMap` (modelled as a lookup function). -/
structure GroupState where
  seriesDate : Option String := none
  seriesTime : Option String := none
  seriesNumber : Option String := none
  numberOfSeriesRelatedInstances : Option ℚ := none
  instanceNumbers : String → Option Int := fun _ => none

/-- One iteration of the source's group scan: a group whose `ddd006`
UIDREF matches the series overwrites the four series-level values and
adds the `ddd008` instance numbers of its IMAGE items to the map.  A
`ddd008` text with no digit prefix gives `NaN` via `parseInt` in the
source; that (clinically meaningless) case is outside the model. -/
def processGroup (seriesInstanceUID : String) (st : GroupState)
    (groupContent : List ContentItem) : GroupState :=
  let groupSeriesUID :=
    (groupContent.find? (fun item =>
      item.conceptCode == some "ddd006" && item.valueType == some "UIDREF")).bind
      ContentItem.uidref
  if groupSeriesUID == some seriesInstanceUID then
    let m := groupContent.foldl (fun m imageItem =>
      if imageItem.valueType == some "IMAGE" then
        match imageItem.refSOP.head? with
        | some sopItem =>
          let sopUID := sopItem.sopInstanceUID
          let txt := findTextValueByCode imageItem.nested "ddd008"
          if jsStrTruthy sopUID && jsStrTruthy txt then
            match jsParseInt (txt.getD "") with
            | some n => fun x => if x = sopUID.getD "" then some n else m x
            | none => m
          else m
        | none => m
      else m) st.instanceNumbers
    { seriesDate := findTextValueByCode groupContent "ddd003"
      seriesTime := findTextValueByCode groupContent "ddd004"
      seriesNumber := findTextValueByCode groupContent "ddd005"
      numberOfSeriesRelatedInstances := findNumericValueByCode groupContent "ddd007"
      instanceNumbers := m }
  else st

/-- The per-SOP-item instance construction (`referencedSOPSequence.map`). -/
def instFromSop (s : SopRefItem) : MadoInstance :=
  { sopClassUID := s.sopClassUID.getD ""
    sopInstanceUID := s.sopInstanceUID.getD ""
    instanceNumber := s.instanceNumber
    numberOfFrames := s.numberOfFrames
    rows := s.rows
    columns := s.columns }

/-- The validity filter: instances with a falsy SOP class or SOP instance
UID are dropped. -/
def instValid (i : MadoInstance) : Bool :=
  i.sopClassUID ≠ "" && i.sopInstanceUID ≠ ""

/-- The comparator handed to `Array.prototype.sort`:
`(a.instanceNumber ?? 999999) - (b.instanceNumber ?? 999999)`.  JS sort is
stable, so the embedding uses a stable merge sort with this key. -/
def sortKey (i : MadoInstance) : Int := i.instanceNumber.getD 999999

def sortLe (a b : MadoInstance) : Bool := sortKey a ≤ sortKey b

/-- The valid instances of a series item, enriched with the instance
numbers harvested from the content sequence — the list as it stands
immediately before the sort. -/
def seriesEnrichedInstances (ds : MadoDataset) (seriesItem : SeriesItem) :
    List MadoInstance :=
  let validInstances :=
    (seriesItem.referencedSOP.map instFromSop).filter instValid
  let st := (contentGroups ds.content).foldl
    (processGroup (seriesItem.seriesInstanceUID.getD "")) {}
  validInstances.map (fun inst =>
    match st.instanceNumbers inst.sopInstanceUID with
    | some n => { inst with instanceNumber := some n }
    | none => inst)

/-- The body of the source's `referencedSeriesSequence.forEach`: skip a
series with a falsy UID, drop invalid instances, skip the series when no
valid instance remains, otherwise enrich, sort and build the display
set. -/
def processSeries (ds : MadoDataset) (seriesItem : SeriesItem) :
    Option MadoDisplaySet :=
  if ¬ jsStrTruthy seriesItem.seriesInstanceUID then none
  else
    let validInstances :=
      (seriesItem.referencedSOP.map instFromSop).filter instValid
    if validInstances.isEmpty then none
    else
      let st := (contentGroups ds.content).foldl
        (processGroup (seriesItem.seriesInstanceUID.getD "")) {}
      some
        { studyInstanceUID := ds.studyInstanceUID.getD ""
          seriesInstanceUID := seriesItem.seriesInstanceUID.getD ""
          seriesDescription := jsStrOrD seriesItem.seriesDescription "MADO Series"
          seriesDate := jsStrOr st.seriesDate ds.studyDate
          seriesTime := jsStrOr st.seriesTime ds.studyTime
          seriesNumber := st.seriesNumber
          modality := jsStrOr seriesItem.modality (findModalityFromContent ds.content)
          numberOfSeriesRelatedInstances :=
            some (jsNumOrD st.numberOfSeriesRelatedInstances (validInstances.length : ℚ))
          instances := (seriesEnrichedInstances ds seriesItem).mergeSort sortLe
          retrieveURL := seriesItem.retrieveURL }

/-- `MadoParser.parse`, from the decoded dataset onward.  The single
`throw` in the source is the missing-study-UID guard (a falsy value of
tag `0020,000D`). -/
def parse (ds : MadoDataset) : Except String (List MadoDisplaySet) :=
  if ¬ jsStrTruthy ds.studyInstanceUID then
    .error "MADO file is missing required StudyInstanceUID (0020,000D)"
  else
    .ok ((ds.evidence.map (fun studyItem =>
      studyItem.referencedSeries.filterMap (processSeries ds))).flatten)

end MadoParser

/-! ## Sample-extracted metadata and its application to a series
(`src/unnamed/part_005`, `applyExtractedMetadataToSeries`) -/

/-- The sparse bag of attributes extracted from the prefetched first
instance of a series.  Fields the applier copies are modelled; the
segmented-palette and PET/US extras it does not read are omitted. -/
structure ExtractedSeriesMetadata where
  Rows : Option ℚ := none
  Columns : Option ℚ := none
  BitsAllocated : Option ℚ := none
  BitsStored : Option ℚ := none
  HighBit : Option ℚ := none
  PixelRepresentation : Option ℚ := none
  SamplesPerPixel : Option ℚ := none
  PhotometricInterpretation : Option String := none
  PlanarConfiguration : Option ℚ := none
  PixelSpacing : Option (List ℚ) := none
  SliceThickness : Option ℚ := none
  SpacingBetweenSlices : Option ℚ := none
  ImageOrientationPatient : Option (List ℚ) := none
  ImagePositionPatient : Option (List ℚ) := none
  WindowCenter : Option ℚ := none
  WindowWidth : Option ℚ := none
  RescaleIntercept : Option ℚ := none
  RescaleSlope : Option ℚ := none
  RescaleType : Option String := none
  FrameOfReferenceUID : Option String := none
  TransferSyntaxUID : Option String := none
  NumberOfFrames : Option ℚ := none
  RedPaletteColorLookupTableDescriptor : Option (List ℚ) := none
  GreenPaletteColorLookupTableDescriptor : Option (List ℚ) := none
  BluePaletteColorLookupTableDescriptor : Option (List ℚ) := none
  RedPaletteColorLookupTableData : Option (List ℚ) := none
  GreenPaletteColorLookupTableData : Option (List ℚ) := none
  BluePaletteColorLookupTableData : Option (List ℚ) := none
  PaletteColorLookupTableUID : Option String := none
deriving DecidableEq, Inhabited, Repr

/-- The slice spacing used for position interpolation:
`extractedMeta.SpacingBetweenSlices || extractedMeta.SliceThickness || 1.0`. -/
def sliceSpacingOf (extractedMeta : ExtractedSeriesMetadata) : ℚ :=
  jsNumOrD (jsNumOr extractedMeta.SpacingBetweenSlices extractedMeta.SliceThickness) 1

/-- The slice normal: the cross product of the first three and the last
three direction cosines.  Indexing a too-short orientation array yields
`undefined` (hence `NaN` positions) in JS; the model reads `0` there and
the theorems carry a length-6 hypothesis instead. -/
def sliceNormalOf (orientation : List ℚ) : List ℚ :=
  let rowCos := orientation.take 3
  let colCos := (orientation.drop 3).take 3
  [rowCos.getD 1 0 * colCos.getD 2 0 - rowCos.getD 2 0 * colCos.getD 1 0,
   rowCos.getD 2 0 * colCos.getD 0 0 - rowCos.getD 0 0 * colCos.getD 2 0,
   rowCos.getD 0 0 * colCos.getD 1 0 - rowCos.getD 1 0 * colCos.getD 0 0]

/-- `applyExtractedMetadataToSeries`: copies every defined extracted field
onto each instance (PascalCase slots, `rows`/`columns`/`pixelSpacing`/
`sliceThickness`/`imageOrientationPatient` camelCase per the source), and,
when the sample carried a first-slice position, overwrites each
instance's `imagePositionPatient` with
`firstPosition + sliceNormal * (index * sliceSpacing)`.  The in-place
mutation is modelled by returning the updated list.  (The camelCase
palette alias slots, absent from the model, are not written by this
function in the source either.) -/
def applyExtractedMetadataToSeries (instances : List MadoInstance)
    (extractedMeta : ExtractedSeriesMetadata) : List MadoInstance :=
  if instances.isEmpty then instances
  else
    let sliceSpacing := sliceSpacingOf extractedMeta
    let orientation := (jsArrOr extractedMeta.ImageOrientationPatient
      (some [1, 0, 0, 0, 1, 0])).getD [1, 0, 0, 0, 1, 0]
    let firstPosition := (jsArrOr extractedMeta.ImagePositionPatient
      (some [0, 0, 0])).getD [0, 0, 0]
    let sliceNormal := sliceNormalOf orientation
    instances.mapIdx (fun index inst =>
      let i1 : MadoInstance := { inst with
        rows := extractedMeta.Rows.or inst.rows
        columns := extractedMeta.Columns.or inst.columns
        BitsAllocated := extractedMeta.BitsAllocated.or inst.BitsAllocated
        BitsStored := extractedMeta.BitsStored.or inst.BitsStored
        HighBit := extractedMeta.HighBit.or inst.HighBit
        PixelRepresentation := extractedMeta.PixelRepresentation.or inst.PixelRepresentation
        SamplesPerPixel := extractedMeta.SamplesPerPixel.or inst.SamplesPerPixel
        PhotometricInterpretation := extractedMeta.PhotometricInterpretation.or inst.PhotometricInterpretation
        PlanarConfiguration := extractedMeta.PlanarConfiguration.or inst.PlanarConfiguration
        pixelSpacing := extractedMeta.PixelSpacing.or inst.pixelSpacing
        sliceThickness := extractedMeta.SliceThickness.or inst.sliceThickness
        imageOrientationPatient := extractedMeta.ImageOrientationPatient.or inst.imageOrientationPatient
        WindowCenter := extractedMeta.WindowCenter.or inst.WindowCenter
        WindowWidth := extractedMeta.WindowWidth.or inst.WindowWidth
        RescaleIntercept := extractedMeta.RescaleIntercept.or inst.RescaleIntercept
        RescaleSlope := extractedMeta.RescaleSlope.or inst.RescaleSlope
        RescaleType := extractedMeta.RescaleType.or inst.RescaleType
        FrameOfReferenceUID := extractedMeta.FrameOfReferenceUID.or inst.FrameOfReferenceUID
        TransferSyntaxUID := extractedMeta.TransferSyntaxUID.or inst.TransferSyntaxUID
        RedPaletteColorLookupTableDescriptor := extractedMeta.RedPaletteColorLookupTableDescriptor.or inst.RedPaletteColorLookupTableDescriptor
        GreenPaletteColorLookupTableDescriptor := extractedMeta.GreenPaletteColorLookupTableDescriptor.or inst.GreenPaletteColorLookupTableDescriptor
        BluePaletteColorLookupTableDescriptor := extractedMeta.BluePaletteColorLookupTableDescriptor.or inst.BluePaletteColorLookupTableDescriptor
        RedPaletteColorLookupTableData := extractedMeta.RedPaletteColorLookupTableData.or inst.RedPaletteColorLookupTableData
        GreenPaletteColorLookupTableData := extractedMeta.GreenPaletteColorLookupTableData.or inst.GreenPaletteColorLookupTableData
        BluePaletteColorLookupTableData := extractedMeta.BluePaletteColorLookupTableData.or inst.BluePaletteColorLookupTableData
        PaletteColorLookupTableUID := extractedMeta.PaletteColorLookupTableUID.or inst.PaletteColorLookupTableUID
        _prefetchedMetadata := true }
      if extractedMeta.ImagePositionPatient.isSome then
        let offset := (index : ℚ) * sliceSpacing
        let pos := [firstPosition.getD 0 0 + sliceNormal.getD 0 0 * offset,
                    firstPosition.getD 1 0 + sliceNormal.getD 1 0 * offset,
                    firstPosition.getD 2 0 + sliceNormal.getD 2 0 * offset]
        { i1 with imagePositionPatient := some pos }
      else i1)

/-! ## Instance metadata synthesis
(`synthesizeMetadataFromMado.ts`, second revision, lines 637-1009) -/

/-- The modality physics registry (`MODALITY_PHYSICS`, second revision,
which adds the `OT` entry and the `US` bit-depth fields). -/
structure ModalityPhysics where
  PixelRepresentation : Option ℚ := none
  RescaleIntercept : Option ℚ := none
  RescaleSlope : Option ℚ := none
  WindowCenter : Option ℚ := none
  WindowWidth : Option ℚ := none
  RescaleType : Option String := none
  Rows : Option ℚ := none
  Columns : Option ℚ := none
  SamplesPerPixel : Option ℚ := none
  PhotometricInterpretation : Option String := none
  BitsAllocated : Option ℚ := none
  BitsStored : Option ℚ := none
  HighBit : Option ℚ := none
  PlanarConfiguration : Option ℚ := none
deriving DecidableEq, Inhabited, Repr

def MODALITY_PHYSICS (m : String) : ModalityPhysics :=
  if m = "CT" then
    { PixelRepresentation := some 1, RescaleIntercept := some (-1024),
      RescaleSlope := some 1, WindowCenter := some 40, WindowWidth := some 400 }
  else if m = "MR" then { WindowCenter := some 600, WindowWidth := some 1200 }
  else if m = "PT" then
    { RescaleType := some "BQML", Rows := some 128, Columns := some 128,
      WindowCenter := some 20, WindowWidth := some 40 }
  else if m = "US" then
    { SamplesPerPixel := some 3, PhotometricInterpretation := some "YBR_FULL_422",
      BitsAllocated := some 8, BitsStored := some 8, HighBit := some 7 }
  else if m = "XA" then
    { BitsAllocated := some 8, BitsStored := some 8, HighBit := some 7 }
  else if m = "SM" then
    { SamplesPerPixel := some 3, PhotometricInterpretation := some "YBR_FULL",
      PlanarConfiguration := some 0 }
  else if m = "OT" then
    { BitsAllocated := some 8, BitsStored := some 8, HighBit := some 7,
      PixelRepresentation := some 0 }
  else {}

/-- `validateSpacing`: a two-or-more element array of positive numbers is
taken (first two entries), anything else becomes `[1.0, 1.0]`.
(`parseFloat` of a number is the number itself; `NaN` inputs are outside
the model.) -/
def validateSpacing (spacing : List ℚ) : List ℚ :=
  match spacing with
  | r :: c :: _ => if r > 0 ∧ c > 0 then [r, c] else [1, 1]
  | _ => [1, 1]

/-- The synthesized per-instance record.  Patient/study string fields,
the `_wadoRoot`/`_wadoUri`/`_imageId` copies and the conditional SR/RT
sequence pass-throughs carry no claim content and are omitted. -/
structure SynthRecord where
  SOPClassUID : String := ""
  SOPInstanceUID : String := ""
  InstanceNumber : ℚ := 1
  Modality : String := ""
  Rows : ℚ := 0
  Columns : ℚ := 0
  PixelSpacing : List ℚ := []
  SliceThickness : ℚ := 1
  ImageOrientationPatient : List ℚ := []
  ImagePositionPatient : List ℚ := []
  FrameOfReferenceUID : String := ""
  BitsAllocated : ℚ := 16
  BitsStored : ℚ := 16
  HighBit : ℚ := 15
  PixelRepresentation : ℚ := 0
  SamplesPerPixel : ℚ := 1
  PhotometricInterpretation : String := "MONOCHROME2"
  WindowCenter : ℚ := 128
  WindowWidth : ℚ := 256
  RescaleIntercept : ℚ := 0
  RescaleSlope : ℚ := 1
  RescaleType : Option String := none
  RedPaletteColorLookupTableDescriptor : Option (List ℚ) := none
  GreenPaletteColorLookupTableDescriptor : Option (List ℚ) := none
  BluePaletteColorLookupTableDescriptor : Option (List ℚ) := none
  RedPaletteColorLookupTableData : Option (List ℚ) := none
  GreenPaletteColorLookupTableData : Option (List ℚ) := none
  BluePaletteColorLookupTableData : Option (List ℚ) := none
  PaletteColorLookupTableUID : Option String := none
  PlanarConfiguration : Option ℚ := none
  SpacingBetweenSlices : Option ℚ := none
  NumberOfFrames : Option ℚ := none
  FrameTime : Option ℚ := none
  FrameIncrementPointer : Option String := none
  TransferSyntaxUID : String := "1.2.840.10008.1.2.1"
  _geometryPatched : Bool := false
deriving DecidableEq, Inhabited, Repr

/-- `patchTechnicalAttributes`: rewrites a `MONO*` photometric value to
`RGB` when three samples per pixel are recorded, and fills in the
multi-frame fields when the instance carries more than one frame. -/
def patchTechnicalAttributes (m : SynthRecord) (inst : MadoInstance) :
    SynthRecord :=
  let m :=
    if m.SamplesPerPixel = 3 ∧ jsStartsWith m.PhotometricInterpretation "MONO" then
      { m with PhotometricInterpretation := "RGB" }
    else m
  let numberOfFrames := jsNumOrD (jsNumOr inst.numberOfFrames inst.NumberOfFrames) 0
  if numberOfFrames > 1 then
    { m with NumberOfFrames := some numberOfFrames
             FrameIncrementPointer := some "(0018,1063)"
             FrameTime := some (m.FrameTime.getD 33.33) }
  else m

def SECONDARY_CAPTURE : String := "1.2.840.10008.5.1.4.1.1.7"

/-- The orientation the synthesizer resolves:
`instance.imageOrientationPatient || instance.ImageOrientationPatient || [1,0,0,0,1,0]`. -/
def resolvedOrientationOf (inst : MadoInstance) : List ℚ :=
  (jsArrOr inst.imageOrientationPatient
    (jsArrOr inst.ImageOrientationPatient (some [1, 0, 0, 0, 1, 0]))).getD [1, 0, 0, 0, 1, 0]

/-- `instance.sliceThickness || instance.SliceThickness || 1.0`. -/
def resolvedSliceThicknessOf (inst : MadoInstance) : ℚ :=
  jsNumOrD (jsNumOr inst.sliceThickness inst.SliceThickness) 1

/-- The position the synthesizer resolves: `instance.imagePositionPatient ||
instance.ImagePositionPatient || [0, 0, index * sliceThickness]`. -/
def resolvedPositionOf (inst : MadoInstance) (index : ℕ) : List ℚ :=
  (jsArrOr inst.imagePositionPatient
    (jsArrOr inst.ImagePositionPatient
      (some [0, 0, (index : ℚ) * resolvedSliceThicknessOf inst]))).getD []

structure SynthContext where
  index : ℕ := 0
deriving DecidableEq, Inhabited, Repr

/-!  The `let`-chain of `synthesizeInstanceMetadata` (second revision,
lines 643-762) is split below into one named definition per `let`, with
the source's variable names, so the theorems can speak about the
individual resolution stages; `synthesizeInstanceMetadata` itself then
assembles them exactly as the source does. -/

/-- `String(displaySet.modality || 'OT').toUpperCase()`. -/
def modalityOf (displaySet : MadoDisplaySet) : String :=
  jsUpper (jsStrOrD displaySet.modality "OT")

/-- `instance.SamplesPerPixel || modalityPhysics.SamplesPerPixel`. -/
def samplesPerPixel0Of (displaySet : MadoDisplaySet) (inst : MadoInstance) : Option ℚ :=
  jsNumOr inst.SamplesPerPixel (MODALITY_PHYSICS (modalityOf displaySet)).SamplesPerPixel

/-- `instance.PhotometricInterpretation ||
modalityPhysics.PhotometricInterpretation || 'MONOCHROME2'`. -/
def photometricInterpretation0Of (displaySet : MadoDisplaySet) (inst : MadoInstance) : String :=
  jsStrOrD
    (jsStrOr inst.PhotometricInterpretation
      (MODALITY_PHYSICS (modalityOf displaySet)).PhotometricInterpretation)
    "MONOCHROME2"

def piStrOf (displaySet : MadoDisplaySet) (inst : MadoInstance) : String :=
  jsUpper (photometricInterpretation0Of displaySet inst)

def isColorImageOf (displaySet : MadoDisplaySet) (inst : MadoInstance) : Bool :=
  jsStartsWith (piStrOf displaySet inst) "RGB" ||
  jsStartsWith (piStrOf displaySet inst) "YBR"

/-- The samples-per-pixel after the inference block (colour ⇒ 3,
otherwise 1 — the `PALETTE COLOR` branch also yields 1). -/
def samplesPerPixel1Of (displaySet : MadoDisplaySet) (inst : MadoInstance) : ℚ :=
  match samplesPerPixel0Of displaySet inst with
  | some v => v
  | none =>
    if isColorImageOf displaySet inst then 3
    else if piStrOf displaySet inst = "PALETTE COLOR" then 1
    else 1

def bitsAllocatedOf (displaySet : MadoDisplaySet) (inst : MadoInstance) : ℚ :=
  ((match jsNumOr inst.BitsAllocated (MODALITY_PHYSICS (modalityOf displaySet)).BitsAllocated with
    | none => if isColorImageOf displaySet inst then some (8 : ℚ) else none
    | s => s)).getD 16

def bitsStoredOf (displaySet : MadoDisplaySet) (inst : MadoInstance) : ℚ :=
  ((match jsNumOr inst.BitsStored (MODALITY_PHYSICS (modalityOf displaySet)).BitsStored with
    | none => if isColorImageOf displaySet inst then some (8 : ℚ) else none
    | s => s)).getD 16

def highBitOf (displaySet : MadoDisplaySet) (inst : MadoInstance) : ℚ :=
  ((match jsNumOr inst.HighBit (MODALITY_PHYSICS (modalityOf displaySet)).HighBit with
    | none => if isColorImageOf displaySet inst then some (7 : ℚ) else none
    | s => s)).getD 15

/-- The palette check of the photometric-derivation block (three
descriptors or the palette UID, by JS truthiness). -/
def hasPaletteDescriptorsOf (inst : MadoInstance) : Bool :=
  inst.RedPaletteColorLookupTableDescriptor.isSome ||
  inst.GreenPaletteColorLookupTableDescriptor.isSome ||
  inst.BluePaletteColorLookupTableDescriptor.isSome ||
  jsStrTruthy inst.PaletteColorLookupTableUID

/-- The conservative photometric derivation (only when the instance has
no explicit photometric value). -/
def photometricInterpretation1Of (displaySet : MadoDisplaySet) (inst : MadoInstance) : String :=
  if ¬ jsStrTruthy inst.PhotometricInterpretation then
    if samplesPerPixel1Of displaySet inst = 3 then "RGB"
    else if samplesPerPixel1Of displaySet inst = 1 ∧ hasPaletteDescriptorsOf inst = true then
      "PALETTE COLOR"
    else jsStrOrD (MODALITY_PHYSICS (modalityOf displaySet)).PhotometricInterpretation "MONOCHROME2"
  else photometricInterpretation0Of displaySet inst

/-- The record-side colour-MR heuristic (lines 752-758): no frame-count
or palette condition. -/
def isLikelyColorMROf (displaySet : MadoDisplaySet) (inst : MadoInstance) : Bool :=
  modalityOf displaySet = "MR" &&
    (displaySet.forceColor || inst.forceColor ||
      samplesPerPixel1Of displaySet inst = 3 ||
      (photometricInterpretation1Of displaySet inst ≠ "" &&
        (jsStartsWith (photometricInterpretation1Of displaySet inst) "RGB" ||
         jsStartsWith (photometricInterpretation1Of displaySet inst) "YBR")))

def samplesPerPixel2Of (displaySet : MadoDisplaySet) (inst : MadoInstance) : ℚ :=
  if isLikelyColorMROf displaySet inst then 3 else samplesPerPixel1Of displaySet inst

def photometricInterpretation2Of (displaySet : MadoDisplaySet) (inst : MadoInstance) : String :=
  if isLikelyColorMROf displaySet inst then
    if jsStartsWith (photometricInterpretation1Of displaySet inst) "YBR" then
      photometricInterpretation1Of displaySet inst
    else "RGB"
  else photometricInterpretation1Of displaySet inst

/-- The condition of the instance-mutating force-colour-MR block
(lines 979-987): instance-level modality `MR`, more than one frame
(camelCase slot), and an explicit colour signal. -/
def mrForceCondOf (inst : MadoInstance) : Bool :=
  inst.Modality == some "MR" &&
  (match inst.numberOfFrames with
    | some n => decide (n > 1)
    | none => false) &&
  (inst.SamplesPerPixel == some 3 ||
    (match inst.PhotometricInterpretation with
      | some p => p ≠ "" && (jsStartsWith p "YBR" || jsStartsWith p "RGB")
      | none => false))

/-- The palette guard of that block (red descriptor or palette UID). -/
def instHasPaletteOf (inst : MadoInstance) : Bool :=
  inst.RedPaletteColorLookupTableDescriptor.isSome ||
  jsStrTruthy inst.PaletteColorLookupTableUID

/-- `synthesizeInstanceMetadata` (second revision).  The source both
returns the record and mutates the passed-in instance (the
force-colour-MR block, lines 977-998, writes to the instance object
only); the model returns the pair (record, updated instance).
`Array.isArray` tests are identically true in the model as the
array-typed fields are lists. -/
def synthesizeInstanceMetadata (displaySet : MadoDisplaySet)
    (inst : MadoInstance) (ctx : SynthContext) :
    SynthRecord × MadoInstance :=
  let sopClass := if inst.sopClassUID = "" then SECONDARY_CAPTURE else inst.sopClassUID
  let modality := modalityOf displaySet
  let modalityPhysics := MODALITY_PHYSICS modality
  let hasPrefetchedMetadata := inst._prefetchedMetadata
  let pixelSpacing := validateSpacing ((jsArrOr inst.pixelSpacing
    (jsArrOr inst.imagerPixelSpacing (some [1, 1]))).getD [1, 1])
  let metadata : SynthRecord :=
    { SOPClassUID := sopClass
      SOPInstanceUID := inst.sopInstanceUID
      InstanceNumber := jsNumOrD (inst.instanceNumber.map (fun n => (n : ℚ))) ((ctx.index : ℚ) + 1)
      Modality := modality
      Rows := jsNumOrD inst.rows 512
      Columns := jsNumOrD inst.columns 512
      PixelSpacing := pixelSpacing
      SliceThickness := resolvedSliceThicknessOf inst
      ImageOrientationPatient := resolvedOrientationOf inst
      ImagePositionPatient := resolvedPositionOf inst ctx.index
      FrameOfReferenceUID := jsStrOrD
        (jsStrOr inst.FrameOfReferenceUID displaySet.frameOfReferenceUID)
        (displaySet.seriesInstanceUID ++ ".1")
      BitsAllocated := bitsAllocatedOf displaySet inst
      BitsStored := bitsStoredOf displaySet inst
      HighBit := highBitOf displaySet inst
      PixelRepresentation :=
        (inst.PixelRepresentation.or modalityPhysics.PixelRepresentation).getD 0
      SamplesPerPixel := samplesPerPixel2Of displaySet inst
      PhotometricInterpretation := photometricInterpretation2Of displaySet inst
      WindowCenter := jsNumOrD (jsNumOr inst.WindowCenter modalityPhysics.WindowCenter) 128
      WindowWidth := jsNumOrD (jsNumOr inst.WindowWidth modalityPhysics.WindowWidth) 256
      RescaleIntercept := (inst.RescaleIntercept.or modalityPhysics.RescaleIntercept).getD 0
      RescaleSlope := (inst.RescaleSlope.or modalityPhysics.RescaleSlope).getD 1
      RescaleType := jsStrOr inst.RescaleType modalityPhysics.RescaleType
      RedPaletteColorLookupTableDescriptor := inst.RedPaletteColorLookupTableDescriptor
      GreenPaletteColorLookupTableDescriptor := inst.GreenPaletteColorLookupTableDescriptor
      BluePaletteColorLookupTableDescriptor := inst.BluePaletteColorLookupTableDescriptor
      RedPaletteColorLookupTableData := inst.RedPaletteColorLookupTableData
      GreenPaletteColorLookupTableData := inst.GreenPaletteColorLookupTableData
      BluePaletteColorLookupTableData := inst.BluePaletteColorLookupTableData
      PaletteColorLookupTableUID := inst.PaletteColorLookupTableUID
      PlanarConfiguration := inst.PlanarConfiguration
      SpacingBetweenSlices := inst.SpacingBetweenSlices
      NumberOfFrames := jsNumOr inst.NumberOfFrames inst.numberOfFrames
      FrameTime := inst.FrameTime
      TransferSyntaxUID := jsStrOrD inst.TransferSyntaxUID "1.2.840.10008.1.2.1"
      _geometryPatched := false }
  let synthesizedIPP := metadata.ImagePositionPatient
  let hasValidSynthesizedGeometry : Bool :=
    metadata.Rows ≠ 0 && metadata.Columns ≠ 0 &&
    synthesizedIPP.length = 3 &&
    metadata.ImageOrientationPatient.length = 6 &&
    metadata.PixelSpacing.length = 2 &&
    (hasPrefetchedMetadata || inst._geometryPatched ||
      (synthesizedIPP.getD 0 0 ≠ 0 || synthesizedIPP.getD 1 0 ≠ 0 ||
       synthesizedIPP.getD 2 0 ≠ 0 || ctx.index = 0))
  let metadata := { metadata with
    _geometryPatched := inst._geometryPatched || hasValidSynthesizedGeometry }
  -- force colour metadata for colour MR images: mutates the instance only
  let instanceOut :=
    if mrForceCondOf inst && !instHasPaletteOf inst then
      { inst with SamplesPerPixel := some 3,
                      PhotometricInterpretation := some "RGB" }
    else inst
  (patchTechnicalAttributes metadata instanceOut, instanceOut)

/-! ## Multipart first-part extraction
(`src/unnamed/part_005`, `extractFirstPartFromMultipart`) -/

def strBytes (s : String) : List Nat := s.data.map Char.toNat

/-- Case-insensitive prefix test on character lists (the regex carries the
`i` flag); the pattern is given lowercase. -/
def startsWithLower : List Char → List Char → Bool
  | [], _ => true
  | _ :: _, [] => false
  | p :: ps, c :: cs => (c.toLower = p) && startsWithLower ps cs

/-- The content-type boundary regex
`/boundary=["']?([^"';\s]+)["']?/i`: first case-insensitive occurrence of
`boundary=`, an optional opening quote, then a maximal nonempty run of
characters that are not quotes, semicolons or whitespace.  (As in a regex
scan, a position where the token would be empty is skipped.) -/
def findBoundaryToken : List Char → Option String
  | [] => none
  | c :: rest =>
    if startsWithLower "boundary=".data (c :: rest) then
      let after := (c :: rest).drop 9
      let after' := match after with
        | q :: r => if q = '"' ∨ q = '\'' then r else after
        | [] => after
      let tok := after'.takeWhile (fun ch =>
        ¬(ch = '"' ∨ ch = '\'' ∨ ch = ';' ∨ ch.isWhitespace))
      if tok.isEmpty then findBoundaryToken rest else some (String.mk tok)
    else findBoundaryToken rest

def boundaryFromContentType (contentType : String) : Option String :=
  findBoundaryToken contentType.data

/-- The byte comparison loop of both boundary searches: does `pat` occur
in `body` at position `i`?  (The source's inner `j` loop over
`pat.length` bytes, always invoked with `i + pat.length` in bounds.) -/
def matchAt (body pat : List Nat) (i : Nat) : Bool :=
  (body.drop i).take pat.length == pat

/-- `for (i = start; i < stop; i++) if match break` — the index of the
first match of `pat` at a position in `[start, stop)`. -/
def firstMatchBelow (body pat : List Nat) (i stop : Nat) : Option Nat :=
  if i < stop then
    if matchAt body pat i then some i else firstMatchBelow body pat (i + 1) stop
  else none
termination_by stop - i

/-- Skip a single CRLF or LF after the opening boundary (out-of-range
reads are `undefined` in JS, modelled by `get?`). -/
def skipNewline (body : List Nat) (startIdx : Nat) : Nat :=
  if body.get? startIdx = some 13 ∧ body.get? (startIdx + 1) = some 10 then startIdx + 2
  else if body.get? startIdx = some 10 then startIdx + 1
  else startIdx

/-- The sub-header scan: the first position `i` in `[i, stop)` where a
CRLF-CRLF (yielding `i+4`) or LF-LF (yielding `i+2`) blank line starts.
The source's loop bound `i < len - 3` keeps all four reads in range. -/
def findBlankFrom (body : List Nat) (i stop : Nat) : Option Nat :=
  if i < stop then
    if body.get? i = some 13 ∧ body.get? (i + 1) = some 10 ∧
       body.get? (i + 2) = some 13 ∧ body.get? (i + 3) = some 10 then
      some (i + 4)
    else if body.get? i = some 10 ∧ body.get? (i + 1) = some 10 then
      some (i + 2)
    else findBlankFrom body (i + 1) stop
  else none
termination_by stop - i

/-- `extractFirstPartFromMultipart`: locate the boundary token, skip the
opening boundary line and the part sub-headers, stop before the next
boundary, trimming one trailing CRLF or LF.  (`Nat` subtraction mirrors
the JS loops: a negative JS bound runs zero iterations.) -/
def extractFirstPartFromMultipart (body : List Nat) (contentType : String) :
    Option (List Nat) :=
  match boundaryFromContentType contentType with
  | none => none
  | some tok =>
    let boundaryBytes := strBytes ("--" ++ tok)
    let len := body.length
    let startIdx0 :=
      match firstMatchBelow body boundaryBytes 0 (len - boundaryBytes.length) with
      | some i => i + boundaryBytes.length
      | none => 0
    let startIdx := skipNewline body startIdx0
    let dataStart := (findBlankFrom body startIdx (len - 3)).getD startIdx
    let dataEnd :=
      match firstMatchBelow body boundaryBytes dataStart (len - boundaryBytes.length) with
      | some i =>
        if 2 ≤ i ∧ body.get? (i - 2) = some 13 ∧ body.get? (i - 1) = some 10 then i - 2
        else if 1 ≤ i ∧ body.get? (i - 1) = some 10 then i - 1
        else i
      | none => len
    if dataEnd ≤ dataStart then none
    else some ((body.drop dataStart).take (dataEnd - dataStart))

/-! ## Byte-level fallback scanner
(`src/unnamed/part_005`, `parseImplicitVrLittleEndianForCommonTags`) -/

def readUint8 (body : List Nat) (i : Nat) : Nat := body.getD i 0

def readUint16 (body : List Nat) (i : Nat) : Nat :=
  readUint8 body i + 256 * readUint8 body (i + 1)

def readUint32 (body : List Nat) (i : Nat) : Nat :=
  readUint16 body i + 65536 * readUint16 body (i + 2)

/-- `n.toString(16).padStart(4, '0')`. -/
def hex4 (n : Nat) : String :=
  let ds := Nat.toDigits 16 n
  String.mk (List.replicate (4 - ds.length) '0' ++ ds)

def isAsciiLetterByte (b : Nat) : Bool :=
  (65 ≤ b && b ≤ 90) || (97 ≤ b && b ≤ 122)

def isAsciiLetters (b1 b2 : Nat) : Bool :=
  isAsciiLetterByte b1 && isAsciiLetterByte b2

def longVRs : List String := ["OB", "OD", "OF", "OL", "OW", "SQ", "UC", "UR", "UT", "UN"]

/-- `readString` of the scanner: up to `length` bytes from `start`
(clamped to the buffer), stopping at the first NUL, decoded and
trimmed. -/
def readStringAt (body : List Nat) (start length : Nat) : String :=
  let bytes := ((body.drop start).take (min length (body.length - start))).takeWhile (· ≠ 0)
  jsTrim (String.mk (bytes.map Char.ofNat))

/-- `readWords`: `length / 2` little-endian 16-bit words from `start`. -/
def readWordsAt (body : List Nat) (start length : Nat) : List Nat :=
  (List.range (length / 2)).map (fun i => readUint16 body (start + 2 * i))

/-- JS `parseFloat`: leading whitespace, optional sign, decimal digits
with optional fraction, optional exponent; `none` models the `NaN` of an
unparsable string (`toNumberArray` filters those out). -/
def jsParseFloat (s : String) : Option ℚ :=
  let cs := s.data.dropWhile Char.isWhitespace
  let sgn : ℚ := match cs with | '-' :: _ => -1 | _ => 1
  let cs := match cs with | '-' :: r => r | '+' :: r => r | _ => cs
  let ipart := cs.takeWhile Char.isDigit
  let cs₂ := cs.drop ipart.length
  let fpart := match cs₂ with
    | '.' :: r => r.takeWhile Char.isDigit
    | _ => []
  let cs₃ := match cs₂ with
    | '.' :: r => r.drop fpart.length
    | _ => cs₂
  if ipart.isEmpty ∧ fpart.isEmpty then none
  else
    let natval : List Char → ℕ := fun ds => ds.foldl (fun acc c => 10 * acc + (c.toNat - 48)) 0
    let mantissa : ℚ := (natval ipart : ℚ) + (natval fpart : ℚ) / (10 : ℚ) ^ fpart.length
    let expo : ℤ := match cs₃ with
      | 'e' :: r | 'E' :: r =>
        let (esgn, r') : ℤ × List Char := match r with
          | '-' :: r' => (-1, r') | '+' :: r' => (1, r') | _ => (1, r)
        let eds := r'.takeWhile Char.isDigit
        if eds.isEmpty then 0 else esgn * (natval eds : ℤ)
      | _ => 0
    some (sgn * mantissa * (10 : ℚ) ^ expo)

/-- `raw.split('\\')` on the character level. -/
def splitBackslash : List Char → List (List Char)
  | [] => [[]]
  | c :: cs =>
    if c = '\\' then [] :: splitBackslash cs
    else
      match splitBackslash cs with
      | p :: ps => (c :: p) :: ps
      | [] => [[c]]

/-- `toNumberArray`: split on backslash, trim, drop empties, parse each
part, keep the finite results; `undefined` when nothing remains. -/
def toNumberArray (raw : String) : Option (List ℚ) :=
  if raw = "" then none
  else
    let parts := ((splitBackslash raw.data).map (fun l => jsTrim (String.mk l))).filter (· ≠ "")
    let nums := parts.filterMap jsParseFloat
    if nums.isEmpty then none else some nums

/-- The values the scanner's `switch` stores (shape only matters for the
emptiness test `Object.keys(metadata).length`): `num none` models a `NaN`
from `parseInt`/`parseFloat`, `numArr none` an assignment of
`undefined` — both still create the key in JS. -/
inductive ScanVal where
  | num (v : Option ℚ)
  | str (s : String)
  | numArr (v : Option (List ℚ))
  | wordArr (v : List Nat)
deriving DecidableEq, Repr

def jsParseIntQ (s : String) : Option ℚ := (jsParseInt s).map (fun n => (n : ℚ))

/-- The scanner's `switch` on the whitelisted tags: appends the
assignment it performs (an assignment log; JS key overwrite order is
irrelevant to the claims).  `WindowCenter`/`WindowWidth` are the only
conditional assignments (`if (arr) ...`); the scalar-vs-array shaping of
those two values is collapsed to the array. -/
def collectTag (tag : String) (raw : String) (words : List Nat)
    (md : List (String × ScanVal)) : List (String × ScanVal) :=
  if tag = "00280010" then md ++ [("Rows", .num (jsParseIntQ raw))]
  else if tag = "00280011" then md ++ [("Columns", .num (jsParseIntQ raw))]
  else if tag = "00280002" then md ++ [("SamplesPerPixel", .num (jsParseIntQ raw))]
  else if tag = "00280004" then md ++ [("PhotometricInterpretation", .str raw)]
  else if tag = "00280030" then md ++ [("PixelSpacing", .numArr (toNumberArray raw))]
  else if tag = "00200037" then md ++ [("ImageOrientationPatient", .numArr (toNumberArray raw))]
  else if tag = "00200032" then md ++ [("ImagePositionPatient", .numArr (toNumberArray raw))]
  else if tag = "00180050" then md ++ [("SliceThickness", .num (jsParseFloat raw))]
  else if tag = "00180088" then md ++ [("SpacingBetweenSlices", .num (jsParseFloat raw))]
  else if tag = "00281050" then
    match toNumberArray raw with
    | some arr => md ++ [("WindowCenter", .numArr (some arr))]
    | none => md
  else if tag = "00281051" then
    match toNumberArray raw with
    | some arr => md ++ [("WindowWidth", .numArr (some arr))]
    | none => md
  else if tag = "00281052" then md ++ [("RescaleIntercept", .num (jsParseFloat raw))]
  else if tag = "00281053" then md ++ [("RescaleSlope", .num (jsParseFloat raw))]
  else if tag = "00280008" then md ++ [("NumberOfFrames", .num (jsParseIntQ raw))]
  else if tag = "00200052" then md ++ [("FrameOfReferenceUID", .str raw)]
  else if tag = "00281101" then md ++ [("RedPaletteColorLookupTableDescriptor", .wordArr words)]
  else if tag = "00281102" then md ++ [("GreenPaletteColorLookupTableDescriptor", .wordArr words)]
  else if tag = "00281103" then md ++ [("BluePaletteColorLookupTableDescriptor", .wordArr words)]
  else if tag = "00281201" then md ++ [("RedPaletteColorLookupTableData", .wordArr words)]
  else if tag = "00281202" then md ++ [("GreenPaletteColorLookupTableData", .wordArr words)]
  else if tag = "00281203" then md ++ [("BluePaletteColorLookupTableData", .wordArr words)]
  else if tag = "00281221" then md ++ [("SegmentedRedPaletteColorLookupTableData", .wordArr words)]
  else if tag = "00281222" then md ++ [("SegmentedGreenPaletteColorLookupTableData", .wordArr words)]
  else if tag = "00281223" then md ++ [("SegmentedBluePaletteColorLookupTableData", .wordArr words)]
  else if tag = "00281199" then md ++ [("PaletteColorLookupTableUID", .str raw)]
  else md

/-- One iteration of the scanner's `while` loop up to the point where the
element's data extent is known: tag, data offset, value length and the
next loop offset.  `none` models the early `break`s while reading the
length (the post-tag bounds check is kept although the loop guard already
implies it).  The `valueLength < 0` check of the source is vacuous for an
unsigned 32-bit read and has no counterpart here. -/
def elementAt (body : List Nat) (offset : Nat) :
    Option (String × Nat × Nat × Nat) :=
  let len := body.length
  let tag := hex4 (readUint16 body offset) ++ hex4 (readUint16 body (offset + 2))
  let o1 := offset + 4
  if o1 + 4 > len then none
  else if o1 + 2 ≤ len && isAsciiLetters (readUint8 body o1) (readUint8 body (o1 + 1)) then
    let vr := String.mk [Char.ofNat (readUint8 body o1), Char.ofNat (readUint8 body (o1 + 1))]
    let o2 := o1 + 2
    if longVRs.contains vr then
      let o3 := o2 + 2
      if o3 + 4 > len then none
      else
        let vl := readUint32 body o3
        some (tag, o3 + 4, vl, o3 + 4 + vl)
    else if o2 + 2 > len then none
    else
      let vl := readUint16 body o2
      some (tag, o2 + 2, vl, o2 + 2 + vl)
  else
    let vl := readUint32 body o1
    some (tag, o1 + 4, vl, o1 + 4 + vl)

/-- The scanner's `while (offset + 8 <= len)` loop.  An element whose
value would extend past the buffer end aborts the scan, returning the
entries collected so far. -/
def scanLoop (body : List Nat) (offset : Nat)
    (md : List (String × ScanVal)) : List (String × ScanVal) :=
  if offset + 8 ≤ body.length then
    match h : elementAt body offset with
    | none => md
    | some (tag, dOff, vl, next) =>
      if dOff + vl > body.length then md
      else
        scanLoop body next
          (collectTag tag (readStringAt body dOff vl) (readWordsAt body dOff vl) md)
  else md
termination_by body.length - offset
decreasing_by
  simp only [elementAt] at h
  repeat' split at h
  all_goals first
    | (simp only [Option.some.injEq, Prod.mk.injEq] at h
       obtain ⟨-, -, hvl, hnext⟩ := h
       omega)
    | simp at h

/-- `parseImplicitVrLittleEndianForCommonTags`: run the scan from offset
0; `null` when no whitelisted tag was stored. -/
def parseImplicitVrLittleEndianForCommonTags (body : List Nat) :
    Option (List (String × ScanVal)) :=
  let md := scanLoop body 0 []
  if md.isEmpty then none else some md

/-! ## Claim-side specification predicates and concrete fixtures -/

/-- The five-field geometry well-formedness of the spec, with "present
and well-formed" read as the synthesizer's own validity conditions:
nonzero row and column counts and correctly sized arrays. -/
def wellFormedGeometry (m : SynthRecord) : Prop :=
  m.Rows ≠ 0 ∧ m.Columns ≠ 0 ∧ m.ImagePositionPatient.length = 3 ∧
    m.ImageOrientationPatient.length = 6 ∧ m.PixelSpacing.length = 2

/-- Any orientation array the instance supplies (in either casing, as the
synthesizer resolves them) has six entries.  The one pre-synthesis writer
of `_geometryPatched` (`part_006`, lines 620-627) establishes this before
setting the flag, writing both casings together. -/
def suppliedOrientationOk (inst : MadoInstance) : Prop :=
  ∀ l, jsArrOr inst.imageOrientationPatient inst.ImageOrientationPatient = some l →
    l.length = 6

/-- Any position array the instance supplies has three entries. -/
def suppliedPositionOk (inst : MadoInstance) : Prop :=
  ∀ l, jsArrOr inst.imagePositionPatient inst.ImagePositionPatient = some l →
    l.length = 3

/-- The RGB/YBR photometric family of the spec. -/
def rgbFamily (s : String) : Bool := jsStartsWith s "RGB" || jsStartsWith s "YBR"

/-- The ordering claimed by the spec for parsed instances: instance
number ascending (absent numbers share the sort sentinel), ties broken by
lexical SOP-UID comparison. -/
def claimC2Pair (a b : MadoInstance) : Prop :=
  MadoParser.sortKey a ≤ MadoParser.sortKey b ∧
    (MadoParser.sortKey a = MadoParser.sortKey b →
      lexLe a.sopInstanceUID b.sopInstanceUID = true)

/-- The spec's ordering claim applied to a parse result. -/
def claimC2holds (r : Except String (List MadoDisplaySet)) : Prop :=
  ∀ s ∈ r.toOption.getD [], s.instances.Pairwise claimC2Pair

/-- Modelled from the spec: slice spacing "= explicit
spacing-between-slices, else slice thickness, else 1.0", with "present"
read as the field being defined (the code instead falls through on a
present-but-zero value). -/
def specSliceSpacing (meta : ExtractedSeriesMetadata) : ℚ :=
  (meta.SpacingBetweenSlices.or meta.SliceThickness).getD 1

/-- Modelled from the spec: the claimed interpolated position
`firstPosition + sliceNormal * (index * spacing)` with the claim's
spacing rule. -/
def specPositionAt (meta : ExtractedSeriesMetadata) (index : ℕ) : List ℚ :=
  let orientation := (jsArrOr meta.ImageOrientationPatient
    (some [1, 0, 0, 0, 1, 0])).getD [1, 0, 0, 0, 1, 0]
  let p := (jsArrOr meta.ImagePositionPatient (some [0, 0, 0])).getD [0, 0, 0]
  let n := sliceNormalOf orientation
  let offset := (index : ℚ) * specSliceSpacing meta
  [p.getD 0 0 + n.getD 0 0 * offset,
   p.getD 1 0 + n.getD 1 0 * offset,
   p.getD 2 0 + n.getD 2 0 * offset]

/-- The amended position formula: identical, but with the code's
truthiness-based spacing (`SpacingBetweenSlices || SliceThickness || 1.0`). -/
def codePositionAt (meta : ExtractedSeriesMetadata) (index : ℕ) : List ℚ :=
  let orientation := (jsArrOr meta.ImageOrientationPatient
    (some [1, 0, 0, 0, 1, 0])).getD [1, 0, 0, 0, 1, 0]
  let p := (jsArrOr meta.ImagePositionPatient (some [0, 0, 0])).getD [0, 0, 0]
  let n := sliceNormalOf orientation
  let offset := (index : ℚ) * sliceSpacingOf meta
  [p.getD 0 0 + n.getD 0 0 * offset,
   p.getD 1 0 + n.getD 1 0 * offset,
   p.getD 2 0 + n.getD 2 0 * offset]

/-- Modelled from the spec (claim C3): a pixel field resolved with the
manifest value winning over the sample value, then the generic default. -/
def claimRowsManifestFirst (inst : MadoInstance) (meta : ExtractedSeriesMetadata) : ℚ :=
  jsNumOrD (inst.rows.or meta.Rows) 512

/-! ### Concrete fixtures -/

def mkSopRef (cls uid : String) : SopRefItem :=
  { sopClassUID := some cls, sopInstanceUID := some uid }

/-- A manifest with a study UID and one series of two instances whose
SOP-instance UIDs are in reverse lexical order, both without instance
numbers. -/
def cexDsC2 : MadoDataset :=
  { studyInstanceUID := some "ST"
    evidence := [⟨[{ seriesInstanceUID := some "S",
                     referencedSOP := [mkSopRef "C" "B", mkSopRef "C" "A"] }]⟩] }

/-- Scenario B: a manifest with two evidence series items, the second
lacking its SeriesInstanceUID. -/
def dsScenarioB : MadoDataset :=
  { studyInstanceUID := some "ST"
    evidence := [⟨[{ seriesInstanceUID := some "S1", referencedSOP := [mkSopRef "C" "I1"] },
                   { seriesInstanceUID := none, referencedSOP := [mkSopRef "C" "I2"] }]⟩] }

/-- The same manifest with the missing series UID supplied. -/
def dsScenarioBFixed : MadoDataset :=
  { studyInstanceUID := some "ST"
    evidence := [⟨[{ seriesInstanceUID := some "S1", referencedSOP := [mkSopRef "C" "I1"] },
                   { seriesInstanceUID := some "S2", referencedSOP := [mkSopRef "C" "I2"] }]⟩] }

/-- A plain display set (modality defaults to OT). -/
def dsPlain : MadoDisplaySet := { seriesInstanceUID := "S" }

def dsMRplain : MadoDisplaySet := { seriesInstanceUID := "S", modality := some "MR" }

def ctx0 : SynthContext := {}

def ctx1 : SynthContext := { index := 1 }

def instPlain : MadoInstance := { sopClassUID := "C", sopInstanceUID := "X" }

/-- Scenario A's extracted sample: 512×512, axial orientation, origin
position, unit pixel spacing, slice thickness 2. -/
def metaScenarioA : ExtractedSeriesMetadata :=
  { Rows := some 512, Columns := some 512
    ImageOrientationPatient := some [1, 0, 0, 0, 1, 0]
    ImagePositionPatient := some [0, 0, 0]
    PixelSpacing := some [1, 1], SliceThickness := some 2 }

/-- The C4 counterexample sample: `SpacingBetweenSlices` present with
value 0 next to `SliceThickness` 2. -/
def metaC4cex : ExtractedSeriesMetadata :=
  { ImageOrientationPatient := some [1, 0, 0, 0, 1, 0]
    ImagePositionPatient := some [0, 0, 0]
    SpacingBetweenSlices := some 0, SliceThickness := some 2 }

/-- The C3 counterexample: the manifest supplied 256 rows, the sample 512. -/
def instC3cex : MadoInstance :=
  { sopClassUID := "C", sopInstanceUID := "X", rows := some 256 }

def metaC3cex : ExtractedSeriesMetadata := { Rows := some 512 }

def dsCT : MadoDisplaySet := { seriesInstanceUID := "S", modality := some "CT" }

/-- Scenario E's instance: palette descriptor present, photometric and
samples-per-pixel unset. -/
def instScenarioE : MadoInstance :=
  { sopClassUID := "C", sopInstanceUID := "X"
    RedPaletteColorLookupTableDescriptor := some [256, 0, 16] }

/-- The C7 counterexample: three samples per pixel with an explicit
non-RGB/YBR photometric value. -/
def instC7cex : MadoInstance :=
  { sopClassUID := "C", sopInstanceUID := "X"
    SamplesPerPixel := some 3, PhotometricInterpretation := some "PALETTE COLOR" }

/-- The C8 counterexample: a single-frame MR instance with an explicit
RGB photometric value and one sample per pixel. -/
def instC8cex : MadoInstance :=
  { sopClassUID := "C", sopInstanceUID := "X"
    SamplesPerPixel := some 1, PhotometricInterpretation := some "RGB" }

/-- A multi-frame colour MR instance (triggers the instance-mutating
override). -/
def instC8multi : MadoInstance :=
  { sopClassUID := "C", sopInstanceUID := "X", Modality := some "MR"
    numberOfFrames := some 5, SamplesPerPixel := some 3 }

/-- The same instance carrying a palette descriptor (the override must
leave it alone). -/
def instC8palette : MadoInstance :=
  { sopClassUID := "C", sopInstanceUID := "X", Modality := some "MR"
    numberOfFrames := some 5, SamplesPerPixel := some 3
    RedPaletteColorLookupTableDescriptor := some [256, 0, 16] }

/-- The C10 counterexample: a supplied 3-element orientation array. -/
def instBadIOP : MadoInstance :=
  { sopClassUID := "C", sopInstanceUID := "X"
    imageOrientationPatient := some [1, 0, 0] }

/-- An implicit-VR element `(0028,0010) len 4 "256 "` — a well-formed
Rows element for the scanner. -/
def bufRows256 : List Nat := [40, 0, 16, 0, 4, 0, 0, 0, 50, 53, 54, 32]

/-- The same element followed by an element whose 32-bit length
(0xFFFFFFFF) would read far past the buffer end. -/
def bufOverrun : List Nat := bufRows256 ++ [40, 0, 17, 0, 255, 255, 255, 255]

/-- Scenario C's multipart body: boundary `xyz`, CRLF-separated
sub-header, blank line, a four-byte payload, trailing CRLF, closing
boundary. -/
def scenarioCPayload : List Nat := [1, 2, 3, 42]

def scenarioCBody : List Nat :=
  strBytes "--xyz\r\nContent-Type: application/dicom\r\n\r\n" ++ scenarioCPayload ++
    strBytes "\r\n--xyz--"

def scenarioCContentType : String := "multipart/related; boundary=xyz"

/-- The display set `MadoParser.parse` produces for `cexDsC2`. -/
def sC2sorted : MadoDisplaySet :=
  { studyInstanceUID := "ST", seriesInstanceUID := "S"
    seriesDescription := "MADO Series"
    numberOfSeriesRelatedInstances := some 2
    instances := [{ sopClassUID := "C", sopInstanceUID := "B" },
                  { sopClassUID := "C", sopInstanceUID := "A" }] }

/-- The merge of the sample-extracted metadata onto a single manifest
instance (the element `applyExtractedMetadataToSeries` produces for a
one-instance series). -/
def mergedInstanceOf (inst : MadoInstance) (meta : ExtractedSeriesMetadata) : MadoInstance :=
  (applyExtractedMetadataToSeries [inst] meta).getD 0 inst

/-! # Theorems -/

/-! ## Parser helper lemmas -/

theorem sortLe_trans (a b c : MadoInstance) (hab : MadoParser.sortLe a b = true)
    (hbc : MadoParser.sortLe b c = true) : MadoParser.sortLe a c = true := by
  simp only [MadoParser.sortLe, decide_eq_true_eq] at *
  omega

theorem sortLe_total (a b : MadoInstance) :
    (MadoParser.sortLe a b || MadoParser.sortLe b a) = true := by
  simp only [MadoParser.sortLe, Bool.or_eq_true, decide_eq_true_eq]
  omega

theorem processSeries_eq_some {ds : MadoDataset} {se : SeriesItem} {s : MadoDisplaySet}
    (h : MadoParser.processSeries ds se = some s) :
    s.instances = (MadoParser.seriesEnrichedInstances ds se).mergeSort MadoParser.sortLe := by
  unfold MadoParser.processSeries at h
  split at h
  · exact absurd h (by simp)
  · dsimp only at h
    split at h
    · exact absurd h (by simp)
    · obtain rfl := Option.some.inj h
      rfl

theorem processSeries_isSome (ds : MadoDataset) (se : SeriesItem) :
    (MadoParser.processSeries ds se).isSome =
      (jsStrTruthy se.seriesInstanceUID &&
        !((se.referencedSOP.map MadoParser.instFromSop).filter MadoParser.instValid).isEmpty) := by
  unfold MadoParser.processSeries
  split
  · simp_all
  · dsimp only
    split <;> simp_all

theorem parse_ok_elim {ds : MadoDataset} {sets : List MadoDisplaySet}
    (hok : MadoParser.parse ds = .ok sets) :
    sets = (ds.evidence.map (fun studyItem =>
      studyItem.referencedSeries.filterMap (MadoParser.processSeries ds))).flatten := by
  unfold MadoParser.parse at hok
  split at hok
  · exact absurd hok (by simp)
  · exact (Except.ok.inj hok).symm

theorem parse_mem {ds : MadoDataset} {sets : List MadoDisplaySet} {s : MadoDisplaySet}
    (hok : MadoParser.parse ds = .ok sets) (hs : s ∈ sets) :
    ∃ studyItem ∈ ds.evidence, ∃ seriesItem ∈ studyItem.referencedSeries,
      MadoParser.processSeries ds seriesItem = some s := by
  rw [parse_ok_elim hok] at hs
  rw [List.mem_flatten] at hs
  obtain ⟨l, hl, hsl⟩ := hs
  rw [List.mem_map] at hl
  obtain ⟨studyItem, hst, rfl⟩ := hl
  rw [List.mem_filterMap] at hsl
  obtain ⟨seriesItem, hse, hps⟩ := hsl
  exact ⟨studyItem, hst, seriesItem, hse, hps⟩

theorem length_filterMap_eq_countP {α β : Type} (f : α → Option β) (l : List α) :
    (l.filterMap f).length = l.countP (fun a => (f a).isSome) := by
  induction l with
  | nil => rfl
  | cons a t ih =>
    rw [List.filterMap_cons, List.countP_cons]
    cases h : f a <;> simp [h, ih]

theorem mem_seriesEnrichedInstances_valid {ds : MadoDataset} {se : SeriesItem}
    {inst : MadoInstance} (h : inst ∈ MadoParser.seriesEnrichedInstances ds se) :
    MadoParser.instValid inst = true := by
  unfold MadoParser.seriesEnrichedInstances at h
  simp only [List.mem_map] at h
  obtain ⟨x, hx, rfl⟩ := h
  have hxv : MadoParser.instValid x = true := (List.mem_filter.mp hx).2
  split
  · simpa [MadoParser.instValid] using hxv
  · exact hxv

/-! ## C2 — parsed instance ordering -/

/-- C2, counterexample: for the manifest `cexDsC2` (two instances with
equally absent instance numbers, SOP UIDs `"B"` then `"A"`),
`MadoParser.parse` keeps the manifest order `["B", "A"]`, so the claimed
lexical SOP-UID tie-break does not hold on the output. -/
theorem madoParser_no_lexical_tiebreak_cex :
    ¬ claimC2holds (MadoParser.parse cexDsC2) := by
  intro hall
  simp [claimC2holds, MadoParser.parse, MadoParser.processSeries,
    MadoParser.seriesEnrichedInstances, MadoParser.contentGroups,
    MadoParser.findModalityFromContent, MadoParser.instFromSop, MadoParser.instValid,
    cexDsC2, mkSopRef, jsStrTruthy, jsStrOr, jsStrOrD, jsNumOrD, List.mergeSort,
    MadoParser.sortLe, MadoParser.sortKey, Except.toOption, Option.getD,
    List.pairwise_cons, claimC2Pair, lexLe, lexLe.go] at hall

/-- C2, amended: within every parsed series the instance list is sorted
by the key `instanceNumber ?? 999999` ascending and is a permutation of
the series' valid (enriched) instances; ties — including equally absent
instance numbers — keep their relative manifest order (the sort is
stable), with no SOP-UID tie-break. -/
theorem madoParser_parse_sorted_stable (ds : MadoDataset) (sets : List MadoDisplaySet)
    (hok : MadoParser.parse ds = .ok sets) (s : MadoDisplaySet) (hs : s ∈ sets) :
    s.instances.Pairwise (fun a b => MadoParser.sortKey a ≤ MadoParser.sortKey b)
  ∧ ∃ studyItem ∈ ds.evidence, ∃ seriesItem ∈ studyItem.referencedSeries,
      s.instances.Perm (MadoParser.seriesEnrichedInstances ds seriesItem)
    ∧ ∀ a b : MadoInstance,
        [a, b].Sublist (MadoParser.seriesEnrichedInstances ds seriesItem) →
        MadoParser.sortLe a b = true → [a, b].Sublist s.instances := by
  obtain ⟨studyItem, hst, seriesItem, hse, hps⟩ := parse_mem hok hs
  have hinst := processSeries_eq_some hps
  constructor
  · rw [hinst]
    exact (@List.sorted_mergeSort _ MadoParser.sortLe sortLe_trans sortLe_total
      (MadoParser.seriesEnrichedInstances ds seriesItem)).imp
      (fun hab => by simpa [MadoParser.sortLe] using hab)
  · refine ⟨studyItem, hst, seriesItem, hse, ?_, ?_⟩
    · rw [hinst]
      exact List.mergeSort_perm _ _
    · intro a b hsub hle
      rw [hinst]
      exact List.pair_sublist_mergeSort sortLe_trans sortLe_total hle hsub

/-- C2, witness: the amended theorem applied to the concrete manifest
`cexDsC2`. -/
theorem madoParser_parse_sorted_stable_witness :
    MadoParser.parse cexDsC2 = .ok [sC2sorted]
  ∧ sC2sorted.instances.Pairwise (fun a b => MadoParser.sortKey a ≤ MadoParser.sortKey b) := by
  have hok : MadoParser.parse cexDsC2 = .ok [sC2sorted] := by
    norm_num +decide [MadoParser.parse, MadoParser.processSeries,
      MadoParser.seriesEnrichedInstances, MadoParser.contentGroups,
      MadoParser.findModalityFromContent, MadoParser.instFromSop, MadoParser.instValid,
      cexDsC2, mkSopRef, sC2sorted, jsStrTruthy, jsStrOr, jsStrOrD, jsNumOrD,
      List.mergeSort, MadoParser.sortLe, MadoParser.sortKey,
      List.filterMap_cons, List.filterMap_nil]
  exact ⟨hok,
    (madoParser_parse_sorted_stable cexDsC2 [sC2sorted] hok sC2sorted (by simp)).1⟩

/-! ## C5 — fatal missing study UID, non-fatal series / instance drops -/

/-- C5: `MadoParser.parse` raises exactly when the top-level
StudyInstanceUID is absent (no non-empty value — `dcmjs` yields no value
for an empty attribute); with a study UID it always succeeds, the
descriptor count is the number of series items that have a series UID
and at least one valid instance (so a series item lacking its UID, or an
instance lacking either SOP UID, is dropped without raising), and every
returned instance carries both SOP UIDs. -/
theorem madoParser_parse_missing_study_uid (ds : MadoDataset) :
    ((∃ e, MadoParser.parse ds = .error e) ↔ jsStrTruthy ds.studyInstanceUID = false)
  ∧ (∀ sets, MadoParser.parse ds = .ok sets →
      sets.length = (ds.evidence.map (fun studyItem =>
        studyItem.referencedSeries.countP (fun seriesItem =>
          jsStrTruthy seriesItem.seriesInstanceUID &&
          !((seriesItem.referencedSOP.map MadoParser.instFromSop).filter
              MadoParser.instValid).isEmpty))).sum
    ∧ ∀ s ∈ sets, ∀ inst ∈ s.instances, MadoParser.instValid inst = true) := by
  constructor
  · constructor
    · rintro ⟨e, he⟩
      unfold MadoParser.parse at he
      split at he
      · simp_all
      · exact absurd he (by simp)
    · intro hf
      refine ⟨"MADO file is missing required StudyInstanceUID (0020,000D)", ?_⟩
      unfold MadoParser.parse
      rw [if_pos (by simp [hf])]
  · intro sets hok
    constructor
    · rw [parse_ok_elim hok, List.length_flatten, List.map_map]
      simp only [Function.comp_def, length_filterMap_eq_countP, processSeries_isSome]
    · intro s hs inst hinst
      obtain ⟨studyItem, _, seriesItem, _, hps⟩ := parse_mem hok hs
      rw [processSeries_eq_some hps] at hinst
      rw [List.mem_mergeSort] at hinst
      exact mem_seriesEnrichedInstances_valid hinst

/-- C5, witness (Scenario B): the UID-less series of `dsScenarioB` is
dropped — one descriptor instead of the two of `dsScenarioBFixed` — and
no error is raised; with the study UID removed, parsing fails. -/
theorem madoParser_parse_missing_study_uid_witness :
    (∀ sets, MadoParser.parse dsScenarioB = .ok sets → sets.length = 1)
  ∧ (∀ sets, MadoParser.parse dsScenarioBFixed = .ok sets → sets.length = 2)
  ∧ (∃ e, MadoParser.parse { dsScenarioB with studyInstanceUID := none } = .error e) := by
  refine ⟨fun sets hok => ?_, fun sets hok => ?_, ?_⟩
  · rw [((madoParser_parse_missing_study_uid dsScenarioB).2 sets hok).1]
    decide
  · rw [((madoParser_parse_missing_study_uid dsScenarioBFixed).2 sets hok).1]
    decide
  · exact (madoParser_parse_missing_study_uid
      { dsScenarioB with studyInstanceUID := none }).1.mpr (by decide)

/-! ## C4 — per-slice position interpolation -/

/-- C4, counterexample: for the extracted sample `metaC4cex`
(`SpacingBetweenSlices` present with value `0`, `SliceThickness = 2`) the
code positions slice 1 at `[0, 0, 2]` — `0 || 2` falls through to the
thickness — while the claim's spacing rule ("SpacingBetweenSlices if
present") predicts `[0, 0, 0]`. -/
theorem applyExtracted_spacing_zero_cex :
    ((applyExtractedMetadataToSeries [instPlain, instPlain] metaC4cex).getD 1
        default).imagePositionPatient = some [0, 0, 2]
  ∧ specPositionAt metaC4cex 1 = [0, 0, 0]
  ∧ ([0, 0, 2] : List ℚ) ≠ [0, 0, 0] := by
  refine ⟨?_, ?_, by norm_num⟩
  · norm_num +decide [applyExtractedMetadataToSeries, metaC4cex, instPlain, jsArrOr,
      jsNumOr, jsNumOrD, sliceSpacingOf, sliceNormalOf, List.mapIdx_cons,
      List.mapIdx_nil, List.getD]
  · norm_num +decide [specPositionAt, specSliceSpacing, metaC4cex, jsArrOr, sliceNormalOf]

/-- C4, amended: when the sample provides a first-slice position, the
instance at sort index `i` is positioned at
`firstPosition + sliceNormal * (i * spacing)` with the slice normal the
cross product of the row and column cosines and the spacing resolved by
JS truthiness — `SpacingBetweenSlices` if present *and nonzero*, else
`SliceThickness` if present and nonzero, else `1.0`. -/
theorem applyExtractedMetadataToSeries_position_interpolation
    (instances : List MadoInstance) (meta : ExtractedSeriesMetadata)
    (p : List ℚ) (hp : meta.ImagePositionPatient = some p)
    (i : ℕ) (hi : i < instances.length) :
    ((applyExtractedMetadataToSeries instances meta).getD i
        default).imagePositionPatient = some (codePositionAt meta i) := by
  have hne : instances.isEmpty = false := by
    cases instances
    · simp at hi
    · rfl
  unfold applyExtractedMetadataToSeries
  rw [hne]
  simp only [Bool.false_eq_true, if_false]
  rw [List.getD_eq_getElem?_getD,
    List.getElem?_eq_getElem (by simpa [List.length_mapIdx] using hi),
    List.getElem_mapIdx]
  simp only [hp, Option.isSome_some, if_true, Option.getD_some]
  simp [codePositionAt, jsArrOr, hp]

/-- C4, witness (Scenario A): three instances, sample with orientation
`[1,0,0,0,1,0]`, position `[0,0,0]`, slice thickness 2 — instance 2 lands
at `[0,0,2]` and instance 3 at `[0,0,4]`. -/
theorem applyExtracted_position_interpolation_witness :
    ((applyExtractedMetadataToSeries [instPlain, instPlain, instPlain]
        metaScenarioA).getD 1 default).imagePositionPatient = some [0, 0, 2]
  ∧ ((applyExtractedMetadataToSeries [instPlain, instPlain, instPlain]
        metaScenarioA).getD 2 default).imagePositionPatient = some [0, 0, 4] := by
  constructor
  · rw [applyExtractedMetadataToSeries_position_interpolation
      [instPlain, instPlain, instPlain] metaScenarioA [0, 0, 0] rfl 1 (by decide)]
    norm_num +decide [codePositionAt, sliceSpacingOf, sliceNormalOf, metaScenarioA,
      jsArrOr, jsNumOr, jsNumOrD]
  · rw [applyExtractedMetadataToSeries_position_interpolation
      [instPlain, instPlain, instPlain] metaScenarioA [0, 0, 0] rfl 2 (by decide)]
    norm_num +decide [codePositionAt, sliceSpacingOf, sliceNormalOf, metaScenarioA,
      jsArrOr, jsNumOr, jsNumOrD]

/-! ## Synthesis helper lemmas -/

theorem jsNumOrD_ne_zero (a : Option ℚ) (d : ℚ) (hd : d ≠ 0) : jsNumOrD a d ≠ 0 := by
  unfold jsNumOrD
  cases a with
  | none => exact hd
  | some x =>
    dsimp only
    split
    · exact hd
    · assumption

theorem validateSpacing_len (l : List ℚ) : (validateSpacing l).length = 2 := by
  unfold validateSpacing
  split
  · split <;> rfl
  · rfl

theorem validateSpacing_pos (l : List ℚ) : ∀ q ∈ validateSpacing l, 0 < q := by
  intro q hq
  unfold validateSpacing at hq
  split at hq
  · split at hq
    · rename_i h
      simp only [List.mem_cons, List.not_mem_nil, or_false] at hq
      rcases hq with rfl | rfl
      · exact h.1
      · exact h.2
    · simp only [List.mem_cons, List.not_mem_nil, or_false] at hq
      rcases hq with rfl | rfl <;> norm_num
  · simp only [List.mem_cons, List.not_mem_nil, or_false] at hq
    rcases hq with rfl | rfl <;> norm_num

theorem resolvedOrientationOf_length (inst : MadoInstance)
    (h : suppliedOrientationOk inst) : (resolvedOrientationOf inst).length = 6 := by
  unfold resolvedOrientationOf
  unfold suppliedOrientationOk at h
  cases ha : inst.imageOrientationPatient with
  | some l => exact h l (by simp [jsArrOr, ha])
  | none =>
    cases hb : inst.ImageOrientationPatient with
    | some l => exact h l (by simp [jsArrOr, ha, hb])
    | none => simp [jsArrOr, ha, hb]

theorem resolvedPositionOf_length (inst : MadoInstance) (idx : ℕ)
    (h : suppliedPositionOk inst) : (resolvedPositionOf inst idx).length = 3 := by
  unfold resolvedPositionOf
  unfold suppliedPositionOk at h
  cases ha : inst.imagePositionPatient with
  | some l => exact h l (by simp [jsArrOr, ha])
  | none =>
    cases hb : inst.ImagePositionPatient with
    | some l => exact h l (by simp [jsArrOr, ha, hb])
    | none => simp [jsArrOr, ha, hb]

/-- `patchTechnicalAttributes` leaves the geometry fields, the geometry
flag and the samples-per-pixel untouched. -/
theorem patchTech_preserves (m : SynthRecord) (inst : MadoInstance) :
    (patchTechnicalAttributes m inst).Rows = m.Rows
  ∧ (patchTechnicalAttributes m inst).Columns = m.Columns
  ∧ (patchTechnicalAttributes m inst).ImagePositionPatient = m.ImagePositionPatient
  ∧ (patchTechnicalAttributes m inst).ImageOrientationPatient = m.ImageOrientationPatient
  ∧ (patchTechnicalAttributes m inst).PixelSpacing = m.PixelSpacing
  ∧ (patchTechnicalAttributes m inst)._geometryPatched = m._geometryPatched
  ∧ (patchTechnicalAttributes m inst).SamplesPerPixel = m.SamplesPerPixel
  ∧ (patchTechnicalAttributes m inst).BitsAllocated = m.BitsAllocated
  ∧ (patchTechnicalAttributes m inst).BitsStored = m.BitsStored
  ∧ (patchTechnicalAttributes m inst).HighBit = m.HighBit := by
  unfold patchTechnicalAttributes
  dsimp only
  split <;> split <;> simp

/-- `patchTechnicalAttributes` on the photometric value: a `MONO*` value
with three samples per pixel becomes `RGB`, anything else passes
through. -/
theorem patchTech_photometric (m : SynthRecord) (inst : MadoInstance) :
    (patchTechnicalAttributes m inst).PhotometricInterpretation =
      (if m.SamplesPerPixel = 3 ∧ jsStartsWith m.PhotometricInterpretation "MONO" then "RGB"
       else m.PhotometricInterpretation) := by
  unfold patchTechnicalAttributes
  dsimp only
  split <;> split <;> simp_all

/-- The geometry fields of the synthesized record. -/
theorem synthesize_geometry_fields (ds : MadoDisplaySet) (inst : MadoInstance)
    (ctx : SynthContext) :
    (synthesizeInstanceMetadata ds inst ctx).1.Rows = jsNumOrD inst.rows 512
  ∧ (synthesizeInstanceMetadata ds inst ctx).1.Columns = jsNumOrD inst.columns 512
  ∧ (synthesizeInstanceMetadata ds inst ctx).1.ImageOrientationPatient = resolvedOrientationOf inst
  ∧ (synthesizeInstanceMetadata ds inst ctx).1.ImagePositionPatient = resolvedPositionOf inst ctx.index
  ∧ (synthesizeInstanceMetadata ds inst ctx).1.PixelSpacing =
      validateSpacing ((jsArrOr inst.pixelSpacing
        (jsArrOr inst.imagerPixelSpacing (some [1, 1]))).getD [1, 1]) := by
  unfold synthesizeInstanceMetadata
  dsimp only
  refine ⟨?_, ?_, ?_, ?_, ?_⟩ <;> simp [patchTech_preserves]

/-- The synthesized geometry flag, written out. -/
theorem synthesize_flag_eq (ds : MadoDisplaySet) (inst : MadoInstance) (ctx : SynthContext) :
    (synthesizeInstanceMetadata ds inst ctx).1._geometryPatched =
      (inst._geometryPatched ||
        ((jsNumOrD inst.rows 512 ≠ 0) && (jsNumOrD inst.columns 512 ≠ 0) &&
         ((resolvedPositionOf inst ctx.index).length = 3) &&
         ((resolvedOrientationOf inst).length = 6) &&
         ((validateSpacing ((jsArrOr inst.pixelSpacing
             (jsArrOr inst.imagerPixelSpacing (some [1, 1]))).getD [1, 1])).length = 2) &&
         (inst._prefetchedMetadata || inst._geometryPatched ||
           ((resolvedPositionOf inst ctx.index).getD 0 0 ≠ 0 ||
            (resolvedPositionOf inst ctx.index).getD 1 0 ≠ 0 ||
            (resolvedPositionOf inst ctx.index).getD 2 0 ≠ 0 || ctx.index = 0)))) := by
  unfold synthesizeInstanceMetadata
  dsimp only
  simp [patchTech_preserves]

/-- The synthesized pixel-module fields, written out in terms of the
staged definitions. -/
theorem synthesize_pixel_fields (ds : MadoDisplaySet) (inst : MadoInstance) (ctx : SynthContext) :
    (synthesizeInstanceMetadata ds inst ctx).1.SamplesPerPixel = samplesPerPixel2Of ds inst
  ∧ (synthesizeInstanceMetadata ds inst ctx).1.PhotometricInterpretation =
      (if samplesPerPixel2Of ds inst = 3 ∧
          jsStartsWith (photometricInterpretation2Of ds inst) "MONO" then "RGB"
       else photometricInterpretation2Of ds inst)
  ∧ (synthesizeInstanceMetadata ds inst ctx).1.BitsAllocated = bitsAllocatedOf ds inst
  ∧ (synthesizeInstanceMetadata ds inst ctx).1.BitsStored = bitsStoredOf ds inst
  ∧ (synthesizeInstanceMetadata ds inst ctx).1.HighBit = highBitOf ds inst := by
  unfold synthesizeInstanceMetadata
  dsimp only
  refine ⟨by simp [patchTech_preserves], ?_, by simp [patchTech_preserves],
    by simp [patchTech_preserves], by simp [patchTech_preserves]⟩
  rw [patchTech_photometric]

/-- A truthy supplied photometric value survives the first `||` chain. -/
theorem photometric0_of_truthy (ds : MadoDisplaySet) (inst : MadoInstance) (p : String)
    (hp : inst.PhotometricInterpretation = some p) (hne : p ≠ "") :
    photometricInterpretation0Of ds inst = p := by
  unfold photometricInterpretation0Of
  simp [jsStrOr, jsStrTruthy, jsStrOrD, hp, hne]

/-- When three samples per pixel are resolved and the supplied
photometric value is either absent or itself MONO*/RGB-family, the
pre-patch photometric value is RGB-family or MONO*. -/
theorem photometric2_family_or_mono (ds : MadoDisplaySet) (inst : MadoInstance)
    (h3 : samplesPerPixel2Of ds inst = 3)
    (hcase : jsStrTruthy inst.PhotometricInterpretation = false ∨
      (∃ p, inst.PhotometricInterpretation = some p ∧
        (jsStartsWith p "MONO" = true ∨ rgbFamily p = true))) :
    rgbFamily (photometricInterpretation2Of ds inst) = true ∨
    jsStartsWith (photometricInterpretation2Of ds inst) "MONO" = true := by
  unfold photometricInterpretation2Of
  by_cases hmr : isLikelyColorMROf ds inst = true
  · rw [if_pos hmr]
    by_cases hy : jsStartsWith (photometricInterpretation1Of ds inst) "YBR" = true
    · rw [if_pos hy]
      left
      simp [rgbFamily, hy]
    · rw [if_neg hy]
      left
      decide
  · rw [if_neg hmr]
    have h1 : samplesPerPixel1Of ds inst = 3 := by
      unfold samplesPerPixel2Of at h3
      rwa [if_neg hmr] at h3
    unfold photometricInterpretation1Of
    by_cases ht : jsStrTruthy inst.PhotometricInterpretation = true
    · rw [if_neg (by simp [ht])]
      rcases hcase with hfalse | ⟨p, hp, hdisj⟩
      · rw [ht] at hfalse
        exact absurd hfalse (by simp)
      · have hne : p ≠ "" := by
          rw [hp] at ht
          simpa [jsStrTruthy] using ht
        rw [photometric0_of_truthy ds inst p hp hne]
        rcases hdisj with hmono | hfam
        · right; exact hmono
        · left; exact hfam
    · rw [if_pos (by simpa using ht)]
      rw [if_pos h1]
      left
      decide

/-! ## C1 — geometry flag consistency -/

/-- C1: the flag is set only alongside fully well-formed geometry.  The
hypothesis is the reachability invariant of the callers: the only
pre-synthesis writer of `_geometryPatched` (`part_006`, lines 620-627)
sets it exclusively after checking that the instance's supplied
position/orientation arrays are well-formed (both name casings are
written together there, so the resolved arrays are the checked ones). -/
theorem synthesizeInstanceMetadata_geometry_flag_consistent
    (ds : MadoDisplaySet) (inst : MadoInstance) (ctx : SynthContext)
    (hreach : inst._geometryPatched = true →
      suppliedOrientationOk inst ∧ suppliedPositionOk inst) :
    (synthesizeInstanceMetadata ds inst ctx).1._geometryPatched = true →
      wellFormedGeometry (synthesizeInstanceMetadata ds inst ctx).1 := by
  intro hflag
  obtain ⟨hR, hC, hIOP, hIPP, hPS⟩ := synthesize_geometry_fields ds inst ctx
  by_cases hg : inst._geometryPatched = true
  · obtain ⟨ho, hp⟩ := hreach hg
    refine ⟨?_, ?_, ?_, ?_, ?_⟩
    · rw [hR]; exact jsNumOrD_ne_zero _ _ (by norm_num)
    · rw [hC]; exact jsNumOrD_ne_zero _ _ (by norm_num)
    · rw [hIPP]; exact resolvedPositionOf_length _ _ hp
    · rw [hIOP]; exact resolvedOrientationOf_length _ ho
    · rw [hPS]; exact validateSpacing_len _
  · rw [synthesize_flag_eq] at hflag
    simp only [Bool.not_eq_true] at hg
    rw [hg] at hflag
    simp only [Bool.false_or, Bool.and_eq_true, decide_eq_true_eq] at hflag
    obtain ⟨⟨⟨⟨⟨_, _⟩, h3⟩, h6⟩, h2⟩, _⟩ := hflag
    refine ⟨?_, ?_, ?_, ?_, ?_⟩
    · rw [hR]; exact jsNumOrD_ne_zero _ _ (by norm_num)
    · rw [hC]; exact jsNumOrD_ne_zero _ _ (by norm_num)
    · rw [hIPP]; exact h3
    · rw [hIOP]; exact h6
    · rw [hPS]; exact h2

/-- C1, witness: a plain instance at index 0 gets the flag and indeed
fully well-formed geometry. -/
theorem synthesizeInstanceMetadata_geometry_flag_consistent_witness :
    (synthesizeInstanceMetadata dsPlain instPlain ctx0).1._geometryPatched = true
  ∧ wellFormedGeometry (synthesizeInstanceMetadata dsPlain instPlain ctx0).1 := by
  have hflag : (synthesizeInstanceMetadata dsPlain instPlain ctx0).1._geometryPatched = true := by
    rw [synthesize_flag_eq]
    norm_num +decide [instPlain, ctx0, resolvedPositionOf, resolvedOrientationOf,
      resolvedSliceThicknessOf, validateSpacing, jsArrOr, jsNumOr, jsNumOrD]
  exact ⟨hflag,
    synthesizeInstanceMetadata_geometry_flag_consistent dsPlain instPlain ctx0
      (fun h => absurd h (by decide)) hflag⟩

/-! ## C10 — geometry fields are not unconditionally well-formed -/

/-- C10, counterexample: an instance supplying a 3-element orientation
array keeps it (the `[1,0,0,0,1,0]` default only applies when the field
is absent), so the record's geometry is malformed — and the flag then
goes false through the malformed-field check, not through the
non-origin-position condition (the index is 0 here, which satisfies that
condition). -/
theorem geometry_not_always_wellformed_cex :
    (synthesizeInstanceMetadata dsPlain instBadIOP ctx0).1.ImageOrientationPatient = [1, 0, 0]
  ∧ ¬ wellFormedGeometry (synthesizeInstanceMetadata dsPlain instBadIOP ctx0).1
  ∧ (synthesizeInstanceMetadata dsPlain instBadIOP ctx0).1._geometryPatched = false
  ∧ ctx0.index = 0 := by
  have hIOP : (synthesizeInstanceMetadata dsPlain instBadIOP ctx0).1.ImageOrientationPatient
      = [1, 0, 0] := by
    rw [(synthesize_geometry_fields dsPlain instBadIOP ctx0).2.2.1]
    norm_num +decide [resolvedOrientationOf, instBadIOP, jsArrOr]
  refine ⟨hIOP, ?_, ?_, by decide⟩
  · intro hwf
    have h6 := hwf.2.2.2.1
    rw [hIOP] at h6
    simp at h6
  · rw [synthesize_flag_eq]
    norm_num +decide [instBadIOP, ctx0, resolvedPositionOf, resolvedOrientationOf,
      resolvedSliceThicknessOf, validateSpacing, jsArrOr, jsNumOr, jsNumOrD]

/-- C10, amended: `Rows`, `Columns` and `PixelSpacing` do have
unconditional well-formed defaults, but the orientation and position
defaults apply only when the fields are absent — a supplied wrong-length
array passes through, so full geometry well-formedness (and the flag's
truth) additionally requires the supplied arrays to be well-formed. -/
theorem geometry_defaults_amended (ds : MadoDisplaySet) (inst : MadoInstance)
    (ctx : SynthContext) :
    (synthesizeInstanceMetadata ds inst ctx).1.Rows ≠ 0
  ∧ (synthesizeInstanceMetadata ds inst ctx).1.Columns ≠ 0
  ∧ (synthesizeInstanceMetadata ds inst ctx).1.PixelSpacing.length = 2
  ∧ (∀ q ∈ (synthesizeInstanceMetadata ds inst ctx).1.PixelSpacing, 0 < q)
  ∧ (suppliedOrientationOk inst →
      (synthesizeInstanceMetadata ds inst ctx).1.ImageOrientationPatient.length = 6)
  ∧ (suppliedPositionOk inst →
      (synthesizeInstanceMetadata ds inst ctx).1.ImagePositionPatient.length = 3)
  ∧ (suppliedOrientationOk inst → suppliedPositionOk inst →
      wellFormedGeometry (synthesizeInstanceMetadata ds inst ctx).1) := by
  obtain ⟨hR, hC, hIOP, hIPP, hPS⟩ := synthesize_geometry_fields ds inst ctx
  refine ⟨?_, ?_, ?_, ?_, ?_, ?_, ?_⟩
  · rw [hR]; exact jsNumOrD_ne_zero _ _ (by norm_num)
  · rw [hC]; exact jsNumOrD_ne_zero _ _ (by norm_num)
  · rw [hPS]; exact validateSpacing_len _
  · rw [hPS]; exact validateSpacing_pos _
  · intro ho; rw [hIOP]; exact resolvedOrientationOf_length _ ho
  · intro hp; rw [hIPP]; exact resolvedPositionOf_length _ _ hp
  · intro ho hp
    refine ⟨?_, ?_, ?_, ?_, ?_⟩
    · rw [hR]; exact jsNumOrD_ne_zero _ _ (by norm_num)
    · rw [hC]; exact jsNumOrD_ne_zero _ _ (by norm_num)
    · rw [hIPP]; exact resolvedPositionOf_length _ _ hp
    · rw [hIOP]; exact resolvedOrientationOf_length _ ho
    · rw [hPS]; exact validateSpacing_len _

/-- C10, witness: the amended theorem at a plain instance. -/
theorem geometry_defaults_amended_witness :
    wellFormedGeometry (synthesizeInstanceMetadata dsPlain instPlain ctx0).1 := by
  refine (geometry_defaults_amended dsPlain instPlain ctx0).2.2.2.2.2.2 ?_ ?_
  · intro l hl
    simp [jsArrOr, instPlain] at hl
  · intro l hl
    simp [jsArrOr, instPlain] at hl

/-- Indexing past a left append factor. -/
theorem get?_append_add (l₁ l₂ : List Nat) (j : Nat) :
    (l₁ ++ l₂).get? (l₁.length + j) = l₂.get? j := by
  rw [List.get?_append_right (Nat.le_add_right _ _)]
  congr 1
  omega

/-- `firstMatchBelow` returns the first position at which the pattern
matches. -/
theorem firstMatchBelow_eq_some (body pat : List Nat) :
    ∀ d i k stop, k - i = d → i ≤ k → k < stop →
      (∀ j, i ≤ j → j < k → matchAt body pat j = false) →
      matchAt body pat k = true →
      firstMatchBelow body pat i stop = some k := by
  intro d
  induction d with
  | zero =>
    intro i k stop hd hik hks hno hm
    have hik' : i = k := by omega
    subst hik'
    rw [firstMatchBelow, if_pos hks, if_pos hm]
  | succ d ih =>
    intro i k stop hd hik hks hno hm
    have hik' : i < k := by omega
    rw [firstMatchBelow, if_pos (by omega), if_neg (by simp [hno i le_rfl hik'])]
    exact ih (i + 1) k stop (by omega) (by omega) hks
      (fun j h1 h2 => hno j (by omega) h2) hm

/-- `findBlankFrom` returns the data offset right after the first
blank-line pattern (CRLF-CRLF before LF-LF at the same position). -/
theorem findBlankFrom_eq_some (body : List Nat) :
    ∀ d i k stop r, k - i = d → i ≤ k → k < stop →
      (∀ j, i ≤ j → j < k →
        ¬(body.get? j = some 13 ∧ body.get? (j + 1) = some 10 ∧
          body.get? (j + 2) = some 13 ∧ body.get? (j + 3) = some 10) ∧
        ¬(body.get? j = some 10 ∧ body.get? (j + 1) = some 10)) →
      ((body.get? k = some 13 ∧ body.get? (k + 1) = some 10 ∧
        body.get? (k + 2) = some 13 ∧ body.get? (k + 3) = some 10) ∧ r = k + 4 ∨
       (¬(body.get? k = some 13 ∧ body.get? (k + 1) = some 10 ∧
          body.get? (k + 2) = some 13 ∧ body.get? (k + 3) = some 10) ∧
        (body.get? k = some 10 ∧ body.get? (k + 1) = some 10) ∧ r = k + 2)) →
      findBlankFrom body i stop = some r := by
  intro d
  induction d with
  | zero =>
    intro i k stop r hd hik hks hno hpat
    have hik' : i = k := by omega
    subst hik'
    rcases hpat with ⟨hcrlf, hr⟩ | ⟨hncrlf, hlf, hr⟩
    · rw [findBlankFrom, if_pos hks, if_pos hcrlf, hr]
    · rw [findBlankFrom, if_pos hks, if_neg hncrlf, if_pos hlf, hr]
  | succ d ih =>
    intro i k stop r hd hik hks hno hpat
    have hik' : i < k := by omega
    obtain ⟨h1, h2⟩ := hno i le_rfl hik'
    rw [findBlankFrom, if_pos (by omega), if_neg h1, if_neg h2]
    exact ih (i + 1) k stop r (by omega) (by omega) hks
      (fun j ha hb => hno j (by omega) hb) hpat

/-! ## C6 — multipart first-part extraction -/

/-- C6: on a well-formed multipart buffer
`boundary ++ newline ++ headers ++ blank ++ payload ++ newline ++ boundary ++ rest`
— no blank-line pattern inside the sub-headers, no boundary occurrence
inside the part, a nonempty payload and a nonempty trailer after the
closing boundary (real multiparts end with `--` or a newline there), and
an LF-terminated payload not itself ending in CR (otherwise the CR would
be consumed as part of a CRLF trim) — the function returns exactly the
payload bytes. -/
theorem extractFirstPartFromMultipart_extracts_payload
    (contentType tok : String) (B n1 H D P T R body : List Nat)
    (htok : boundaryFromContentType contentType = some tok)
    (hB : B = strBytes ("--" ++ tok))
    (hbody : body = B ++ n1 ++ H ++ D ++ P ++ T ++ B ++ R)
    (hn1 : n1 = [13, 10] ∨ n1 = [10])
    (hD : D = [13, 10, 13, 10] ∨ D = [10, 10])
    (hT : T = [13, 10] ∨ (T = [10] ∧ P.getLast? ≠ some 13))
    (hP : P ≠ [])
    (hR : R ≠ [])
    (hH : ∀ j < B.length + n1.length + H.length, B.length + n1.length ≤ j →
      ¬(body.get? j = some 13 ∧ body.get? (j + 1) = some 10 ∧
        body.get? (j + 2) = some 13 ∧ body.get? (j + 3) = some 10) ∧
      ¬(body.get? j = some 10 ∧ body.get? (j + 1) = some 10))
    (hNoB : ∀ j < B.length + n1.length + H.length + D.length + P.length + T.length,
      B.length + n1.length + H.length + D.length ≤ j → matchAt body B j = false) :
    extractFirstPartFromMultipart body contentType = some P := by
  have hBlen : 2 ≤ B.length := by
    rw [hB]
    show 2 ≤ (("--" ++ tok).data.map Char.toNat).length
    rw [List.length_map, String.data_append]
    simp
  have hn1len : n1.length = 2 ∨ n1.length = 1 := by
    rcases hn1 with h | h <;> simp [h]
  have hDlen : D.length = 4 ∨ D.length = 2 := by
    rcases hD with h | h <;> simp [h]
  have hTlen : T.length = 2 ∨ T.length = 1 := by
    rcases hT with h | ⟨h, -⟩ <;> simp [h]
  have hPpos : 0 < P.length := List.length_pos.mpr hP
  have hRpos : 0 < R.length := List.length_pos.mpr hR
  have hlen : body.length = B.length + n1.length + H.length + D.length +
      P.length + T.length + B.length + R.length := by
    simp [hbody]
    omega
  have e1 : body = B ++ (n1 ++ (H ++ (D ++ (P ++ (T ++ (B ++ R)))))) := by
    simp [hbody, List.append_assoc]
  have e3 : body = (B ++ n1 ++ H) ++ (D ++ (P ++ (T ++ (B ++ R)))) := by
    simp [hbody, List.append_assoc]
  have e4 : body = (B ++ n1 ++ H ++ D) ++ (P ++ (T ++ (B ++ R))) := by
    simp [hbody, List.append_assoc]
  have e5 : body = (B ++ n1 ++ H ++ D ++ P) ++ (T ++ (B ++ R)) := by
    simp [hbody, List.append_assoc]
  have e6 : body = (B ++ n1 ++ H ++ D ++ P ++ T) ++ (B ++ R) := by
    simp [hbody, List.append_assoc]
  have hget1 : ∀ j, body.get? (B.length + j) =
      (n1 ++ (H ++ (D ++ (P ++ (T ++ (B ++ R)))))).get? j := by
    intro j
    rw [e1, get?_append_add]
  have hgetD : ∀ t, body.get? (B.length + n1.length + H.length + t) =
      (D ++ (P ++ (T ++ (B ++ R)))).get? t := by
    intro t
    have hl : (B ++ n1 ++ H).length = B.length + n1.length + H.length := by
      simp
      omega
    rw [e3, ← hl, get?_append_add]
  have hgetP : ∀ t, body.get? (B.length + n1.length + H.length + D.length + t) =
      (P ++ (T ++ (B ++ R))).get? t := by
    intro t
    have hl : (B ++ n1 ++ H ++ D).length =
        B.length + n1.length + H.length + D.length := by
      simp
      omega
    rw [e4, ← hl, get?_append_add]
  have hgetT : ∀ t, body.get? (B.length + n1.length + H.length + D.length + P.length + t) =
      (T ++ (B ++ R)).get? t := by
    intro t
    have hl : (B ++ n1 ++ H ++ D ++ P).length =
        B.length + n1.length + H.length + D.length + P.length := by
      simp
      omega
    rw [e5, ← hl, get?_append_add]
  have hmatch0 : matchAt body B 0 = true := by
    rw [matchAt, List.drop_zero, e1, List.take_left]
    exact beq_self_eq_true B
  have h0 : firstMatchBelow body B 0 (body.length - B.length) = some 0 :=
    firstMatchBelow_eq_some body B 0 0 0 (body.length - B.length) rfl le_rfl
      (by omega) (fun j h1 h2 => absurd h2 (by omega)) hmatch0
  have hskip : skipNewline body B.length = B.length + n1.length := by
    rcases hn1 with h | h
    · have ha : body.get? B.length = some 13 := by
        have := hget1 0
        rw [h] at this
        simpa using this
      have hb : body.get? (B.length + 1) = some 10 := by
        have := hget1 1
        rw [h] at this
        simpa using this
      rw [skipNewline, if_pos ⟨ha, hb⟩, h]
      rfl
    · have ha : body.get? B.length = some 10 := by
        have := hget1 0
        rw [h] at this
        simpa using this
      rw [skipNewline, if_neg (by rintro ⟨h1, -⟩; rw [ha] at h1; simp at h1),
        if_pos ha, h]
      rfl
  have hblank : findBlankFrom body (B.length + n1.length) (body.length - 3) =
      some (B.length + n1.length + H.length + D.length) := by
    refine findBlankFrom_eq_some body (H.length) (B.length + n1.length)
      (B.length + n1.length + H.length) (body.length - 3)
      (B.length + n1.length + H.length + D.length) (by omega) (by omega) (by omega)
      (fun j h1 h2 => hH j (by omega) h1) ?_
    rcases hD with h | h
    · refine Or.inl ⟨⟨?_, ?_, ?_, ?_⟩, by rw [h]; rfl⟩
      · have := hgetD 0
        rw [h] at this
        simpa using this
      · have := hgetD 1
        rw [h] at this
        simpa using this
      · have := hgetD 2
        rw [h] at this
        simpa using this
      · have := hgetD 3
        rw [h] at this
        simpa using this
    · have b0 : body.get? (B.length + n1.length + H.length) = some 10 := by
        have := hgetD 0
        rw [h] at this
        simpa using this
      have b1 : body.get? (B.length + n1.length + H.length + 1) = some 10 := by
        have := hgetD 1
        rw [h] at this
        simpa using this
      refine Or.inr ⟨by rintro ⟨h1, -⟩; rw [b0] at h1; simp at h1, ⟨b0, b1⟩, by rw [h]; rfl⟩
  have hmatchq : matchAt body B
      (B.length + n1.length + H.length + D.length + P.length + T.length) = true := by
    have hl : (B ++ n1 ++ H ++ D ++ P ++ T).length =
        B.length + n1.length + H.length + D.length + P.length + T.length := by
      simp
      omega
    rw [matchAt, ← hl, e6, List.drop_left, List.take_left]
    exact beq_self_eq_true B
  have hq : firstMatchBelow body B (B.length + n1.length + H.length + D.length)
      (body.length - B.length) =
      some (B.length + n1.length + H.length + D.length + P.length + T.length) :=
    firstMatchBelow_eq_some body B (P.length + T.length)
      (B.length + n1.length + H.length + D.length)
      (B.length + n1.length + H.length + D.length + P.length + T.length)
      (body.length - B.length) (by omega) (by omega) (by omega)
      (fun j h1 h2 => hNoB j h2 h1) hmatchq
  simp only [extractFirstPartFromMultipart, htok, ← hB, h0, Nat.zero_add, hskip,
    hblank, Option.getD_some, hq]
  rcases hT with hT1 | ⟨hT2, hlast⟩
  · have hTl : T.length = 2 := by rw [hT1]; rfl
    have hc1 : 2 ≤ B.length + n1.length + H.length + D.length + P.length + T.length ∧
        body.get? (B.length + n1.length + H.length + D.length + P.length + T.length - 2) =
          some 13 ∧
        body.get? (B.length + n1.length + H.length + D.length + P.length + T.length - 1) =
          some 10 := by
      refine ⟨by omega, ?_, ?_⟩
      · have h := hgetT 0
        rw [hT1] at h
        rw [show B.length + n1.length + H.length + D.length + P.length + T.length - 2 =
          B.length + n1.length + H.length + D.length + P.length + 0 from by omega]
        simpa using h
      · have h := hgetT 1
        rw [hT1] at h
        rw [show B.length + n1.length + H.length + D.length + P.length + T.length - 1 =
          B.length + n1.length + H.length + D.length + P.length + 1 from by omega]
        simpa using h
    rw [if_pos hc1, if_neg (by omega)]
    have hdrop : body.drop (B.length + n1.length + H.length + D.length) =
        P ++ (T ++ (B ++ R)) := by
      have hl : (B ++ n1 ++ H ++ D).length =
          B.length + n1.length + H.length + D.length := by
        simp
        omega
      rw [e4, ← hl, List.drop_left]
    rw [hdrop, show B.length + n1.length + H.length + D.length + P.length + T.length - 2 -
        (B.length + n1.length + H.length + D.length) = P.length from by omega,
      List.take_left]
  · have hTl : T.length = 1 := by rw [hT2]; rfl
    have hnc1 : ¬(2 ≤ B.length + n1.length + H.length + D.length + P.length + T.length ∧
        body.get? (B.length + n1.length + H.length + D.length + P.length + T.length - 2) =
          some 13 ∧
        body.get? (B.length + n1.length + H.length + D.length + P.length + T.length - 1) =
          some 10) := by
      rintro ⟨-, hc, -⟩
      rw [show B.length + n1.length + H.length + D.length + P.length + T.length - 2 =
        B.length + n1.length + H.length + D.length + (P.length - 1) from by omega,
        hgetP (P.length - 1)] at hc
      rw [List.get?_append (by omega)] at hc
      rw [← List.getLast?_eq_get?] at hc
      exact hlast hc
    have hc2 : 1 ≤ B.length + n1.length + H.length + D.length + P.length + T.length ∧
        body.get? (B.length + n1.length + H.length + D.length + P.length + T.length - 1) =
          some 10 := by
      refine ⟨by omega, ?_⟩
      have h := hgetT 0
      rw [hT2] at h
      rw [show B.length + n1.length + H.length + D.length + P.length + T.length - 1 =
        B.length + n1.length + H.length + D.length + P.length + 0 from by omega]
      simpa using h
    rw [if_neg hnc1, if_pos hc2, if_neg (by omega)]
    have hdrop : body.drop (B.length + n1.length + H.length + D.length) =
        P ++ (T ++ (B ++ R)) := by
      have hl : (B ++ n1 ++ H ++ D).length =
          B.length + n1.length + H.length + D.length := by
        simp
        omega
      rw [e4, ← hl, List.drop_left]
    rw [hdrop, show B.length + n1.length + H.length + D.length + P.length + T.length - 1 -
        (B.length + n1.length + H.length + D.length) = P.length from by omega,
      List.take_left]

/-- C6, witness: Scenario C — boundary `xyz`, CRLF-separated sub-header,
blank line, four payload bytes, trailing CRLF, closing boundary. -/
theorem extractFirstPart_scenarioC_witness :
    extractFirstPartFromMultipart scenarioCBody scenarioCContentType =
      some scenarioCPayload :=
  extractFirstPartFromMultipart_extracts_payload scenarioCContentType "xyz"
    (strBytes "--xyz") [13, 10] (strBytes "Content-Type: application/dicom")
    [13, 10, 13, 10] scenarioCPayload [13, 10] (strBytes "--") scenarioCBody
    (by decide) (by decide) (by decide) (Or.inl (by decide)) (Or.inl (by decide))
    (Or.inl (by decide)) (by decide) (by decide) (by decide) (by decide)

/-! ## C9 — scanner termination and abort behaviour -/

/-- C9: the fallback scanner terminates on every buffer.  The model's
`scanLoop` is total by well-founded recursion on `body.length - offset`;
that measure decreases because every parsed element strictly advances
the offset by at least the 8 bytes of its header (first conjunct).  An
element whose value extent passes the buffer end aborts the loop,
returning the entries collected so far (second conjunct), and the
top-level parse yields `null` exactly when nothing was collected (third
conjunct). -/
theorem scanner_terminates_and_aborts (body : List Nat) (offset : Nat)
    (md : List (String × ScanVal)) :
    (∀ tag dOff vl next, elementAt body offset = some (tag, dOff, vl, next) →
      offset + 8 ≤ next)
  ∧ (∀ tag dOff vl next, offset + 8 ≤ body.length →
      elementAt body offset = some (tag, dOff, vl, next) →
      dOff + vl > body.length →
      scanLoop body offset md = md)
  ∧ (parseImplicitVrLittleEndianForCommonTags body = none ↔ scanLoop body 0 [] = []) := by
  refine ⟨?_, ?_, ?_⟩
  · intro tag dOff vl next h
    simp only [elementAt] at h
    repeat' split at h
    all_goals first
      | (simp only [Option.some.injEq, Prod.mk.injEq] at h
         obtain ⟨-, -, hvl, hnext⟩ := h
         omega)
      | simp at h
  · intro tag dOff vl next hle he hgt
    rw [scanLoop, if_pos hle]
    split
    · rfl
    · rename_i t d v n heq
      rw [he] at heq
      simp only [Option.some.injEq, Prod.mk.injEq] at heq
      obtain ⟨-, hd, hv, -⟩ := heq
      rw [if_pos (by rw [← hd, ← hv]; exact hgt)]
  · unfold parseImplicitVrLittleEndianForCommonTags
    dsimp only
    split <;> simp_all [List.isEmpty_iff]

/-- C9, witness: the progress bound at the 12-byte Rows element, and the
abort at the overrunning element (declared length 0xFFFFFFFF) after it,
which keeps the already-collected Rows entry. -/
theorem scanner_terminates_witness :
    (0 : Nat) + 8 ≤ 12
  ∧ scanLoop bufOverrun 12 [("Rows", ScanVal.num (some 256))] =
      [("Rows", ScanVal.num (some 256))] := by
  refine ⟨(scanner_terminates_and_aborts bufRows256 0 []).1 "00280010" 8 4 12 (by decide),
    (scanner_terminates_and_aborts bufOverrun 12 _).2.1 "00280011" 20 4294967295 4294967315
      (by decide) (by decide) (by decide)⟩

/-! ## C3 — pixel-module field priority -/

/-- The pixel-module fields of a merged instance, written out: the
sample-extracted value is taken first, the manifest value second. -/
theorem mergedInstanceOf_fields (inst : MadoInstance) (meta : ExtractedSeriesMetadata) :
    (mergedInstanceOf inst meta).rows = meta.Rows.or inst.rows
  ∧ (mergedInstanceOf inst meta).columns = meta.Columns.or inst.columns
  ∧ (mergedInstanceOf inst meta).SamplesPerPixel = meta.SamplesPerPixel.or inst.SamplesPerPixel
  ∧ (mergedInstanceOf inst meta).BitsAllocated = meta.BitsAllocated.or inst.BitsAllocated
  ∧ (mergedInstanceOf inst meta).PhotometricInterpretation =
      meta.PhotometricInterpretation.or inst.PhotometricInterpretation := by
  unfold mergedInstanceOf applyExtractedMetadataToSeries
  dsimp only
  simp only [List.isEmpty_cons, Bool.false_eq_true, if_false,
    List.mapIdx_cons, List.mapIdx_nil, List.getD]
  split <;> simp

/-- C3, counterexample: a manifest-supplied rows value of 256 is
replaced by the sample-extracted value 512 — the merge takes the sample
first (`extractedMeta.Rows || instance.rows`), so the claimed
manifest-over-sample priority fails exactly where the claim states it
"in particular". -/
theorem manifest_rows_overwritten_cex :
    instC3cex.rows = some 256
  ∧ (mergedInstanceOf instC3cex metaC3cex).rows = some 512
  ∧ (synthesizeInstanceMetadata dsCT (mergedInstanceOf instC3cex metaC3cex) ctx0).1.Rows = 512
  ∧ claimRowsManifestFirst instC3cex metaC3cex = 256 := by
  have hrows : (mergedInstanceOf instC3cex metaC3cex).rows = some 512 := by
    rw [(mergedInstanceOf_fields instC3cex metaC3cex).1]
    decide
  refine ⟨by decide, hrows, ?_, by decide⟩
  rw [(synthesize_geometry_fields dsCT (mergedInstanceOf instC3cex metaC3cex) ctx0).1, hrows]
  decide

/-- C3, amended: the actual priority is sample-extracted over manifest
(at the merge), and merged value over modality-profile default over
generic default (in the record): rows/columns default to 512;
samples-per-pixel defaults to 3 on a colour signal and 1 otherwise;
bits-allocated defaults to 8 on a colour signal and 16 otherwise.  The
non-MR hypothesis keeps the colour-MR heuristic (a separate concern,
claim C8) out of the picture. -/
theorem pixel_module_priority_amended (inst : MadoInstance) (meta : ExtractedSeriesMetadata)
    (ds : MadoDisplaySet) (ctx : SynthContext) (hmod : modalityOf ds ≠ "MR") :
    (mergedInstanceOf inst meta).rows = meta.Rows.or inst.rows
  ∧ (mergedInstanceOf inst meta).columns = meta.Columns.or inst.columns
  ∧ (mergedInstanceOf inst meta).SamplesPerPixel = meta.SamplesPerPixel.or inst.SamplesPerPixel
  ∧ (synthesizeInstanceMetadata ds (mergedInstanceOf inst meta) ctx).1.Rows =
      jsNumOrD (mergedInstanceOf inst meta).rows 512
  ∧ (synthesizeInstanceMetadata ds (mergedInstanceOf inst meta) ctx).1.Columns =
      jsNumOrD (mergedInstanceOf inst meta).columns 512
  ∧ (synthesizeInstanceMetadata ds (mergedInstanceOf inst meta) ctx).1.SamplesPerPixel =
      (match jsNumOr (mergedInstanceOf inst meta).SamplesPerPixel
          (MODALITY_PHYSICS (modalityOf ds)).SamplesPerPixel with
       | some v => v
       | none => if isColorImageOf ds (mergedInstanceOf inst meta) then 3 else 1)
  ∧ (synthesizeInstanceMetadata ds (mergedInstanceOf inst meta) ctx).1.BitsAllocated =
      (jsNumOr (mergedInstanceOf inst meta).BitsAllocated
          (MODALITY_PHYSICS (modalityOf ds)).BitsAllocated).getD
        (if isColorImageOf ds (mergedInstanceOf inst meta) then 8 else 16) := by
  obtain ⟨h1, h2, h3, h4, h5⟩ := mergedInstanceOf_fields inst meta
  obtain ⟨g1, g2, -, -, -⟩ := synthesize_geometry_fields ds (mergedInstanceOf inst meta) ctx
  obtain ⟨p1, -, p3, -, -⟩ := synthesize_pixel_fields ds (mergedInstanceOf inst meta) ctx
  have hmr : isLikelyColorMROf ds (mergedInstanceOf inst meta) = false := by
    unfold isLikelyColorMROf
    simp [hmod]
  refine ⟨h1, h2, h3, g1, g2, ?_, ?_⟩
  · rw [p1]
    unfold samplesPerPixel2Of
    rw [if_neg (by simp [hmr])]
    unfold samplesPerPixel1Of samplesPerPixel0Of
    rcases hv : jsNumOr (mergedInstanceOf inst meta).SamplesPerPixel
        (MODALITY_PHYSICS (modalityOf ds)).SamplesPerPixel with - | v
    · simp only [ite_self]
    · rfl
  · rw [p3]
    unfold bitsAllocatedOf
    rcases hv : jsNumOr (mergedInstanceOf inst meta).BitsAllocated
        (MODALITY_PHYSICS (modalityOf ds)).BitsAllocated with - | v
    · rcases hc : isColorImageOf ds (mergedInstanceOf inst meta) <;> simp [hc]
    · rfl

/-- C3, witness: the amended theorem over the CT display set and the
counterexample pair. -/
theorem pixel_module_priority_amended_witness :
    modalityOf dsCT ≠ "MR"
  ∧ (synthesizeInstanceMetadata dsCT (mergedInstanceOf instC3cex metaC3cex) ctx0).1.Rows =
      jsNumOrD (mergedInstanceOf instC3cex metaC3cex).rows 512 := by
  have h : modalityOf dsCT ≠ "MR" := by decide
  exact ⟨h, (pixel_module_priority_amended instC3cex metaC3cex dsCT ctx0 h).2.2.2.1⟩

/-! ## C8 — the colour-MR override -/

/-- The second component of the synthesis pair is the (possibly
mutated) instance, written out. -/
theorem synthesize_snd (ds : MadoDisplaySet) (inst : MadoInstance) (ctx : SynthContext) :
    (synthesizeInstanceMetadata ds inst ctx).2 =
      (if mrForceCondOf inst && !instHasPaletteOf inst then
        { inst with SamplesPerPixel := some 3, PhotometricInterpretation := some "RGB" }
      else inst) := by
  rfl

/-- C8, counterexample: a single-frame MR instance with an explicit RGB
photometric value and one sample per pixel.  The instance-mutating
override does not fire (frame count is not above 1) and leaves the
instance unchanged, yet the record's resolved samples-per-pixel is
forced to 3 by the record-side heuristic, which checks neither frame
count nor palette descriptors — so "for any other input the resolved
values are left unchanged" fails. -/
theorem mr_override_record_unguarded_cex :
    (mrForceCondOf instC8cex && !instHasPaletteOf instC8cex) = false
  ∧ (synthesizeInstanceMetadata dsMRplain instC8cex ctx0).2 = instC8cex
  ∧ instC8cex.SamplesPerPixel = some 1
  ∧ (synthesizeInstanceMetadata dsMRplain instC8cex ctx0).1.SamplesPerPixel = 3 := by
  have hc : (mrForceCondOf instC8cex && !instHasPaletteOf instC8cex) = false := by
    norm_num +decide [mrForceCondOf, instHasPaletteOf, instC8cex, jsStrTruthy]
  refine ⟨hc, by rw [synthesize_snd, if_neg (by simp [hc])], by decide, ?_⟩
  rw [(synthesize_pixel_fields dsMRplain instC8cex ctx0).1]
  norm_num +decide [samplesPerPixel2Of, samplesPerPixel1Of, samplesPerPixel0Of,
    isLikelyColorMROf, modalityOf, hasPaletteDescriptorsOf, photometricInterpretation1Of,
    photometricInterpretation0Of, piStrOf, isColorImageOf, jsStrOr, jsStrOrD, jsStrTruthy,
    jsNumOr, jsNumOrD, jsUpper, jsStartsWith, instC8cex, dsMRplain]

/-- C8, amended: the instance-mutating block behaves exactly as
claimed — it fires precisely on instance-level modality MR, frame count
above 1, an explicit colour signal and no palette descriptor, and then
writes SamplesPerPixel = 3 and PhotometricInterpretation = "RGB" onto
the instance (otherwise the instance is untouched).  But the record's
resolved values are governed by the separate record-side heuristic:
whenever it judges the image a likely colour MR (no frame-count or
palette guard there), the record carries SamplesPerPixel = 3 and an
RGB-family photometric value. -/
theorem mr_override_amended (ds : MadoDisplaySet) (inst : MadoInstance) (ctx : SynthContext) :
    ((mrForceCondOf inst && !instHasPaletteOf inst) = true →
      (synthesizeInstanceMetadata ds inst ctx).2.SamplesPerPixel = some 3 ∧
      (synthesizeInstanceMetadata ds inst ctx).2.PhotometricInterpretation = some "RGB")
  ∧ ((mrForceCondOf inst && !instHasPaletteOf inst) = false →
      (synthesizeInstanceMetadata ds inst ctx).2 = inst)
  ∧ (isLikelyColorMROf ds inst = true →
      (synthesizeInstanceMetadata ds inst ctx).1.SamplesPerPixel = 3 ∧
      rgbFamily (synthesizeInstanceMetadata ds inst ctx).1.PhotometricInterpretation = true) := by
  obtain ⟨hspp, hphot, -, -, -⟩ := synthesize_pixel_fields ds inst ctx
  refine ⟨?_, ?_, ?_⟩
  · intro h
    rw [synthesize_snd, if_pos h]
    exact ⟨rfl, rfl⟩
  · intro h
    rw [synthesize_snd, if_neg (by simp [h])]
  · intro hmr
    have h3 : samplesPerPixel2Of ds inst = 3 := by
      unfold samplesPerPixel2Of
      rw [if_pos hmr]
    have hfam : rgbFamily (photometricInterpretation2Of ds inst) = true := by
      unfold photometricInterpretation2Of
      rw [if_pos hmr]
      by_cases hy : jsStartsWith (photometricInterpretation1Of ds inst) "YBR" = true
      · rw [if_pos hy]
        simp [rgbFamily, hy]
      · rw [if_neg hy]
        decide
    refine ⟨by rw [hspp, h3], ?_⟩
    rw [hphot]
    split
    · decide
    · exact hfam

/-- C8, witness: the multi-frame colour MR instance is mutated to three
samples per pixel; the same instance with a palette descriptor is left
alone. -/
theorem mr_override_amended_witness :
    (synthesizeInstanceMetadata dsMRplain instC8multi ctx0).2.SamplesPerPixel = some 3
  ∧ (synthesizeInstanceMetadata dsMRplain instC8palette ctx0).2 = instC8palette := by
  refine ⟨((mr_override_amended dsMRplain instC8multi ctx0).1 ?_).1,
    (mr_override_amended dsMRplain instC8palette ctx0).2.1 ?_⟩
  · norm_num +decide [mrForceCondOf, instHasPaletteOf, instC8multi, jsStrTruthy, jsStartsWith]
  · norm_num +decide [mrForceCondOf, instHasPaletteOf, instC8palette, jsStrTruthy, jsStartsWith]

/-! ## C7 — photometric / samples-per-pixel consistency -/

/-- C7, counterexample: an instance that supplies three samples per
pixel together with an explicit non-RGB-family photometric value keeps
that value in the record: the claimed invariant "SamplesPerPixel = 3
only with RGB/YBR photometric" does not hold of the code. -/
theorem spp3_explicit_photometric_cex :
    (synthesizeInstanceMetadata dsPlain instC7cex ctx0).1.SamplesPerPixel = 3
  ∧ (synthesizeInstanceMetadata dsPlain instC7cex ctx0).1.PhotometricInterpretation
      = "PALETTE COLOR"
  ∧ rgbFamily "PALETTE COLOR" = false := by
  obtain ⟨hspp, hphot, -, -, -⟩ := synthesize_pixel_fields dsPlain instC7cex ctx0
  refine ⟨?_, ?_, by decide⟩
  · rw [hspp]
    norm_num +decide [samplesPerPixel2Of, samplesPerPixel1Of, samplesPerPixel0Of,
      isLikelyColorMROf, modalityOf, hasPaletteDescriptorsOf, photometricInterpretation1Of,
      photometricInterpretation0Of, piStrOf, isColorImageOf, jsStrOr, jsStrOrD, jsStrTruthy,
      jsNumOr, jsNumOrD, jsUpper, jsStartsWith, instC7cex, dsPlain]
  · rw [hphot]
    norm_num +decide [samplesPerPixel2Of, samplesPerPixel1Of, samplesPerPixel0Of,
      isLikelyColorMROf, modalityOf, hasPaletteDescriptorsOf, photometricInterpretation2Of,
      photometricInterpretation1Of, photometricInterpretation0Of, piStrOf, isColorImageOf,
      jsStrOr, jsStrOrD, jsStrTruthy, jsNumOr, jsNumOrD, jsUpper, jsStartsWith,
      instC7cex, dsPlain]

/-- C7, amended: (a) if the record resolves three samples per pixel and
the supplied photometric value is absent or itself MONO*/RGB-family,
the record's photometric value lands in the RGB family (derived colour
paths only produce RGB or YBR*, and an inherited MONO* is rewritten to
RGB); an explicit non-RGB-family value such as "PALETTE COLOR" is the
only escape (the counterexample).  (b) Palette promotion as specified:
with no supplied photometric value and palette descriptors present, a
record resolving one sample per pixel carries "PALETTE COLOR". -/
theorem photometric_consistency_amended (ds : MadoDisplaySet) (inst : MadoInstance)
    (ctx : SynthContext) :
    ((synthesizeInstanceMetadata ds inst ctx).1.SamplesPerPixel = 3 →
      (jsStrTruthy inst.PhotometricInterpretation = false ∨
        (∃ p, inst.PhotometricInterpretation = some p ∧
          (jsStartsWith p "MONO" = true ∨ rgbFamily p = true))) →
      rgbFamily (synthesizeInstanceMetadata ds inst ctx).1.PhotometricInterpretation = true)
  ∧ (jsStrTruthy inst.PhotometricInterpretation = false →
      hasPaletteDescriptorsOf inst = true →
      (synthesizeInstanceMetadata ds inst ctx).1.SamplesPerPixel = 1 →
      (synthesizeInstanceMetadata ds inst ctx).1.PhotometricInterpretation = "PALETTE COLOR") := by
  obtain ⟨hspp, hphot, -, -, -⟩ := synthesize_pixel_fields ds inst ctx
  constructor
  · intro h3 hcase
    rw [hspp] at h3
    rw [hphot]
    rcases photometric2_family_or_mono ds inst h3 hcase with hfam | hmono
    · split
      · decide
      · exact hfam
    · rw [if_pos ⟨h3, hmono⟩]
      decide
  · intro hnt hpal h1
    rw [hspp] at h1
    rw [hphot]
    have hmr : ¬ isLikelyColorMROf ds inst = true := by
      intro hmr
      unfold samplesPerPixel2Of at h1
      rw [if_pos hmr] at h1
      norm_num at h1
    have hs1 : samplesPerPixel1Of ds inst = 1 := by
      unfold samplesPerPixel2Of at h1
      rwa [if_neg hmr] at h1
    have hphot1 : photometricInterpretation1Of ds inst = "PALETTE COLOR" := by
      unfold photometricInterpretation1Of
      rw [if_pos (by simp [hnt])]
      rw [if_neg (by rw [hs1]; norm_num)]
      rw [if_pos ⟨hs1, hpal⟩]
    have hphot2 : photometricInterpretation2Of ds inst = "PALETTE COLOR" := by
      unfold photometricInterpretation2Of
      rw [if_neg hmr]
      exact hphot1
    rw [if_neg (by rw [h1]; norm_num), hphot2]

/-- C7, witness: Scenario E — no photometric value, palette descriptors
present, one sample per pixel resolved, hence "PALETTE COLOR". -/
theorem photometric_consistency_amended_witness :
    (synthesizeInstanceMetadata dsPlain instScenarioE ctx0).1.PhotometricInterpretation
      = "PALETTE COLOR" := by
  refine (photometric_consistency_amended dsPlain instScenarioE ctx0).2 ?_ ?_ ?_
  · decide
  · decide
  · rw [(synthesize_pixel_fields dsPlain instScenarioE ctx0).1]
    norm_num +decide [samplesPerPixel2Of, samplesPerPixel1Of, samplesPerPixel0Of,
      isLikelyColorMROf, modalityOf, hasPaletteDescriptorsOf, photometricInterpretation1Of,
      photometricInterpretation0Of, piStrOf, isColorImageOf, jsStrOr, jsStrOrD, jsStrTruthy,
      jsNumOr, jsNumOrD, jsUpper, jsStartsWith, instScenarioE, dsPlain]

end Mado
